import Mathlib

/-!
Verification of the session-oriented EOS configuration transport
(`ansible/module_utils/network/eos/eos.py`), the oVirt VM state-control step
(`ansible/modules/cloud/ovirt/ovirt_vms.py`, `control_state`), and the WinRM
file-upload integrity check (`ansible/plugins/connection/winrm.py`,
`Connection.put_file`).

The Python code is shallowly embedded: each embedded function mirrors the
control flow of its source line by line.  The EOS device itself (the remote
end of the transport) is modelled as an explicit state machine over the
command strings the client sends; transport failures are modelled by an
oracle mapping a command string to an optional error.
-/

/-! ## Python string helpers

Small executable stand-ins for the Python string operations used by the
source (`str.strip`, `str.join`, `str.replace`, `str.endswith`, `int(...)`).
They operate on `String.data` so that concrete instances reduce in the
kernel. -/

/-- Model of Python `str.strip()`: drop whitespace from both ends. -/
def pyStrip (s : String) : String :=
  ⟨((s.data.dropWhile Char.isWhitespace).reverse.dropWhile Char.isWhitespace).reverse⟩

/-- Model of Python `sep.join(xs)`. -/
def pyJoin (sep : String) : List String → String
  | [] => ""
  | [x] => x
  | x :: rest => x ++ sep ++ pyJoin sep rest

/-- Fuel-indexed worker for `pyReplace`; the fuel is the length of the
scanned list, so it never runs out for a nonempty pattern. -/
def pyReplaceAux (pat rep : List Char) : Nat → List Char → List Char
  | _, [] => []
  | 0, l => l
  | fuel+1, c :: rest =>
    if pat.isPrefixOf (c :: rest) then
      rep ++ pyReplaceAux pat rep fuel (List.drop (pat.length - 1) rest)
    else c :: pyReplaceAux pat rep fuel rest

/-- Model of Python `s.replace(pat, rep)` for a nonempty pattern:
replace every non-overlapping occurrence, scanning left to right. -/
def pyReplace (s pat rep : String) : String :=
  ⟨pyReplaceAux pat.data rep.data s.data.length s.data⟩

/-- Model of Python `s.endswith(suffix)`. -/
def pyEndsWith (s suffix : String) : Bool :=
  suffix.data.isSuffixOf s.data

/-- Digits of a decimal numeral to a natural number; `none` on a non-digit. -/
def digitsToNat : List Char → Option Nat
  | [] => none
  | l => l.foldl (fun acc c =>
      match acc with
      | none => none
      | some n => if c.isDigit then some (n * 10 + (c.toNat - 48)) else none)
      (some 0)

/-- Model of Python `int(s)` on the strings this code meets: an optional
leading minus sign followed by decimal digits; `none` models `ValueError`. -/
def pyInt (s : String) : Option Int :=
  match s.data with
  | '-' :: rest => (digitsToNat rest).map (fun n => -(n : Int))
  | l => (digitsToNat l).map (fun n => (n : Int))

/-- String containment (model of Python `sub in s`). -/
def strContains (s sub : String) : Prop :=
  List.IsInfix sub.data s.data

instance (s sub : String) : Decidable (strContains s sub) :=
  inferInstanceAs (Decidable (List.IsInfix sub.data s.data))

/-! ## The EOS device model

The remote Arista EOS device is a state machine.  Its state is the running
configuration (an ordered list of applied configuration lines), the set of
open configuration sessions (each holding its staged lines), and the prompt
mode of the interactive connection (top-level `#`, global config `(config)#`,
or inside a named config session).

The device interprets the command strings the Python client sends:
`configure session NAME` opens (or re-enters) a session, `commit` applies a
session's staged lines to the running configuration, `abort` discards the
session, `end` returns to the top-level prompt, `show session-config diffs`
reports the diff between running and staged configuration.  Inside a session
every other line is staged; under global `configure` every other line is
applied directly to running configuration; at top level other commands are
read-only `show`-style commands.

The textual outputs of read-only commands are abstracted by two oracles:
`sd` (the device's diff renderer) and `so` (the output of a top-level show
command). -/

/-- Prompt mode of the interactive connection. -/
inductive Mode where
  | top
  | config
  | session (name : String)
deriving DecidableEq

/-- Device state: running config, open sessions (name to staged lines), and
the connection's prompt mode. -/
structure DevState where
  running : List String
  sessions : String → Option (List String)
  mode : Mode

/-- Classification of a command string as the device reads it. -/
inductive DevCmd where
  | endc
  | abortc
  | commitc
  | showDiffs
  | enter (name : String)
  | configure
  | plain (cmd : String)
deriving DecidableEq

/-- Parse a command string into its device-level class.  A command of the
form `configure session NAME` is recognised by its 18-character prefix. -/
def parseCmd (c : String) : DevCmd :=
  if c = "end" then .endc
  else if c = "abort" then .abortc
  else if c = "commit" then .commitc
  else if c = "show session-config diffs" then .showDiffs
  else if c.data.take 18 = "configure session ".data then .enter ⟨c.data.drop 18⟩
  else if c = "configure" then .configure
  else .plain c

/-- Staged lines of session `n` (empty when the session is not open). -/
def stagedOf (st : DevState) (n : String) : List String :=
  (st.sessions n).getD []

/-- Open session `n` if it is not already open. -/
def ensureSession (n : String) (s : String → Option (List String)) :
    String → Option (List String) :=
  fun k => if k = n then some ((s n).getD []) else s k

/-- Append a staged line to session `n`. -/
def stageLine (n : String) (c : String) (s : String → Option (List String)) :
    String → Option (List String) :=
  fun k => if k = n then some ((s n).getD [] ++ [c]) else s k

/-- Remove session `n`. -/
def clearSession (n : String) (s : String → Option (List String)) :
    String → Option (List String) :=
  fun k => if k = n then none else s k

/-- One step of the device: execute one command string, returning the new
state and the command's textual output. -/
def execCmd (sd : List String → List String → String) (so : String → String)
    (st : DevState) (c : String) : DevState × String :=
  match st.mode with
  | .session n =>
    match parseCmd c with
    | .commitc =>
      ({ running := st.running ++ stagedOf st n,
         sessions := clearSession n st.sessions, mode := .top }, "")
    | .abortc =>
      ({ st with sessions := clearSession n st.sessions, mode := .top }, "")
    | .endc => ({ st with mode := .top }, "")
    | .showDiffs => (st, sd st.running (stagedOf st n))
    | _ => ({ st with sessions := stageLine n c st.sessions }, "")
  | .config =>
    match parseCmd c with
    | .endc => ({ st with mode := .top }, "")
    | _ => ({ st with running := st.running ++ [c] }, "")
  | .top =>
    match parseCmd c with
    | .enter n =>
      ({ st with sessions := ensureSession n st.sessions, mode := .session n }, "")
    | .configure => ({ st with mode := .config }, "")
    | _ => (st, so c)

/-- Transport-level error: the message (`exc.err`) and the device error code
(eAPI `error.code`). -/
structure TransportErr where
  msg : String
  code : Int
deriving DecidableEq

/-- Transport-failure oracle: which command strings make the transport raise,
and with what error. -/
abbrev Oracle := String → Option TransportErr

/-- Diff-renderer oracle type (running config, staged lines → diff text). -/
abbrev DiffFn := List String → List String → String

/-- Show-command output oracle type. -/
abbrev OutFn := String → String

/-! ## Module-level outcome model

An embedded operation either returns a value, calls
`self._module.fail_json(...)` (a structured failure with message, optional
`data` and optional `code`), or lets a Python exception escape uncaught
(`pyError`, e.g. a `TypeError` or an unhandled `ConnectionError`). -/

/-- Outcome of an embedded Ansible-module operation. -/
inductive Outcome (α : Type) where
  | ok (val : α)
  | failJson (msg : String) (data : Option String) (code : Option Int)
  | pyError (msg : String)
deriving DecidableEq

/-- Result dictionary of `load_config`: optional `changed`, `session` and
`diff` keys (absent keys are `none`). -/
structure LoadResult where
  changed : Option Bool := none
  session : Option String := none
  diff : Option String := none
deriving DecidableEq

/-- Session name generated by both `Cli.load_config` and `Eapi.load_config`:
`'ansible_%s' % int(time.time())`, where `t` is the whole-second wall-clock
timestamp of the call. -/
def sessionName (t : Nat) : String :=
  "ansible_" ++ toString t

/-- Embeds lines 227-231 / 415-419: `use_session = os.getenv(
'ANSIBLE_EOS_USE_SESSIONS', True)`, then `int(use_session)` with a
`ValueError` falling back to the raw string, then `bool(use_session)`.
`env` is the environment variable (absent → Python default `True`). -/
def useSessionFlag (env : Option String) : Bool :=
  match env with
  | none => true
  | some s =>
    match pyInt s with
    | some n => n ≠ 0
    | none => s ≠ ""

/-- Python `repr` of a string as used by `'%s' % commands` (quote with
apostrophes; embedded quotes in the command are not re-escaped). -/
def pyStrRepr (s : String) : String := "\x27" ++ s ++ "\x27"

/-- Python `'%s' % commands` for a list of command strings. -/
def pyListRepr (cmds : List String) : String :=
  "[" ++ pyJoin ", " (cmds.map pyStrRepr) ++ "]"

/-- Message of the `fail_json` raised when staging fails
(`"Error on executing commands %s" % commands`). -/
def stageFailMsg (cmds : List String) : String :=
  "Error on executing commands " ++ pyListRepr cmds

/-- TypeError message raised by `self.configure(self, commands)` (lines 235
and 423): `configure` is a bound method with parameters `(self, commands)`,
so this call supplies three positional arguments against two. -/
def configureArityMsg : String :=
  "configure() takes 2 positional arguments but 3 were given"

/-! ## The `Cli` client (interactive transport) -/

/-- Per-instance state of a `Cli` object: the connected device, the cached
session-support probe result (`self._session_support`) and the config cache
(`self._device_configs`).  Warnings emitted via `module.warn` are not
modelled. -/
structure CliClient where
  dev : DevState
  sessionSupport : Option Bool
  deviceConfigs : List (String × String)

/-- Python-dict lookup on the config cache. -/
def dictGet (k : String) : List (String × String) → Option String
  | [] => none
  | (k', v) :: rest => if k = k' then some v else dictGet k rest

/-- Embeds `conn.get(command, ...)` over the interactive transport: the
oracle decides whether the transport raises `ConnectionError`; otherwise the
device executes the command.  The prompt/answer/multiline arguments only
affect prompt handling on the wire and are not part of the device model. -/
def cliGet (errs : Oracle) (sd : DiffFn) (so : OutFn)
    (st : DevState) (c : String) : DevState × Except TransportErr String :=
  match errs c with
  | some e => (st, .error e)
  | none =>
    let p := execCmd sd so st c
    (p.1, .ok p.2)

namespace Cli

/-- Embeds `Cli.close_session` (lines 124-129): `conn.get('end')`,
`conn.get('configure session %s' % session)`, `conn.get('abort')`.  A
transport error on any of the three propagates (returned as `some e`). -/
def close_session (errs : Oracle) (sd : DiffFn) (so : OutFn)
    (st : DevState) (session : String) : DevState × Option TransportErr :=
  match cliGet errs sd so st "end" with
  | (st1, .error e) => (st1, some e)
  | (st1, .ok _) =>
    match cliGet errs sd so st1 ("configure session " ++ session) with
    | (st2, .error e) => (st2, some e)
    | (st2, .ok _) =>
      match cliGet errs sd so st2 "abort" with
      | (st3, .error e) => (st3, some e)
      | (st3, .ok _) => (st3, none)

/-- Embeds the `Cli.supports_sessions` property (lines 131-143): return the
cached `self._session_support` when set; otherwise probe with
`conn.get('show configuration sessions')`, any exception meaning the device
does not support sessions. -/
def supports_sessions (errs : Oracle) (sd : DiffFn) (so : OutFn)
    (cli : CliClient) : CliClient × Bool :=
  match cli.sessionSupport with
  | some b => (cli, b)
  | none =>
    match errs "show configuration sessions" with
    | some _ => ({ cli with sessionSupport := some false }, false)
    | none =>
      let p := execCmd sd so cli.dev "show configuration sessions"
      ({ cli with dev := p.1, sessionSupport := some true }, true)

/-- Embeds `Cli.get_config` (lines 145-161).  `fetch` is the
`conn.get_config(flags=flags)` endpoint of the persistent connection (a
read-only call; it does not change device state). -/
def get_config (fetch : List String → String) (cli : CliClient)
    (flags : Option (List String)) : CliClient × String :=
  let flags := flags.getD []
  let cmd := pyStrip ("show running-config " ++ pyJoin " " flags)
  match dictGet cmd cli.deviceConfigs with
  | some cfg => (cli, cfg)
  | none =>
    let cfg := pyStrip (fetch flags)
    ({ cli with deviceConfigs := (cmd, cfg) :: cli.deviceConfigs }, cfg)

/-- Embeds the loop of `Cli.send_config` (lines 191-205): skip `end` lines,
track the (dead) multiline flag, and `conn.get` every other command in
order.  Returns the trace of commands handed to `conn.get` (including a
command whose transmission raised), the device state reached, and the first
transport error if any. -/
def send_configAux (errs : Oracle) (sd : DiffFn) (so : OutFn)
    (st : DevState) (multiline : Bool) :
    List String → List String × DevState × Option TransportErr
  | [] => ([], st, none)
  | c :: rest =>
    if c = "end" then send_configAux errs sd so st multiline rest
    else
      let m := if "banner".data.isPrefixOf c.data || multiline then true
               else if c = "EOF" && multiline then false
               else multiline
      match cliGet errs sd so st c with
      | (st1, .error e) => ([c], st1, some e)
      | (st1, .ok _) =>
        let r := send_configAux errs sd so st1 m rest
        (c :: r.1, r.2.1, r.2.2)

/-- Embeds `Cli.send_config` (the loop starts with `multiline = False`). -/
def send_config (errs : Oracle) (sd : DiffFn) (so : OutFn)
    (st : DevState) (commands : List String) :
    List String × DevState × Option TransportErr :=
  send_configAux errs sd so st false commands

/-- Embeds `Cli.load_config` (lines 224-266).  `env` is
`ANSIBLE_EOS_USE_SESSIONS`, `t` is `int(time.time())`.  The fallback branch
with `commit` set evaluates `self.configure(self, commands)`, which raises
`TypeError` before `configure` runs (three positional arguments against
two); `conn.get` calls outside the `try` block let `ConnectionError` escape
uncaught (`pyError`). -/
def load_config (errs : Oracle) (sd : DiffFn) (so : OutFn)
    (env : Option String) (t : Nat) (cli : CliClient)
    (commands : List String) (commit : Bool) (replace : Bool) :
    CliClient × Outcome LoadResult :=
  let p := supports_sessions errs sd so cli
  let cli := p.1
  if ¬(useSessionFlag env ∧ p.2) then
    if commit then (cli, .pyError configureArityMsg)
    else
      -- self._module.warn("EOS can not check config without config session")
      (cli, .ok { changed := some true })
  else
    let session := sessionName t
    match cliGet errs sd so cli.dev ("configure session " ++ session) with
    | (dev, .error e) => ({ cli with dev }, .pyError e.msg)
    | (dev, .ok _) =>
      let step : DevState × Except TransportErr String :=
        if replace then cliGet errs sd so dev "rollback clean-config"
        else (dev, .ok "")
      match step with
      | (dev, .error e) => ({ cli with dev }, .pyError e.msg)
      | (dev, .ok _) =>
        match send_config errs sd so dev commands with
        | (_, dev, some e) =>
          -- except ConnectionError: self.close_session(session); fail_json
          match close_session errs sd so dev session with
          | (dev, some e2) => ({ cli with dev }, .pyError e2.msg)
          | (dev, none) =>
            ({ cli with dev },
             .failJson (stageFailMsg commands) (some e.msg) none)
        | (_, dev, none) =>
          match cliGet errs sd so dev "show session-config diffs" with
          | (dev, .error e) => ({ cli with dev }, .pyError e.msg)
          | (dev, .ok out) =>
            let diff : Option String := if out ≠ "" then some (pyStrip out) else none
            if commit then
              match cliGet errs sd so dev "commit" with
              | (dev, .error e) => ({ cli with dev }, .pyError e.msg)
              | (dev, .ok _) =>
                ({ cli with dev }, .ok { session := some session, diff := diff })
            else
              match close_session errs sd so dev session with
              | (dev, some e) => ({ cli with dev }, .pyError e.msg)
              | (dev, none) =>
                ({ cli with dev }, .ok { session := some session, diff := diff })

end Cli

/-! ## The `Eapi` client (request-response transport) -/

/-- Response of one eAPI `runCmds` request: either an RPC-level error object
(`{"error": {"message", "code"}}`) or a result list with one entry per
submitted command.  Text-format result entries are modelled by their
`output` string. -/
inductive EapiResponse where
  | error (msg : String) (code : Int)
  | result (outs : List String)
deriving DecidableEq

/-- Per-instance state of an `Eapi` object: device, cached session-support
flag (`self._session_support`), config cache (`self._device_configs`). -/
structure EapiClient where
  dev : DevState
  sessionSupport : Option Bool
  deviceConfigs : List (String × String)

/-- Sequential execution of one request's command list on the device: eAPI
runs the commands in order and stops at the first failing one, leaving the
effects of the earlier commands in place.  Returns the reached state, the
outputs of the executed commands, and the first error if any. -/
def runBatch (errs : Oracle) (sd : DiffFn) (so : OutFn) :
    DevState → List String → DevState × List String × Option TransportErr
  | st, [] => (st, [], none)
  | st, c :: rest =>
    match errs c with
    | some e => (st, [], some e)
    | none =>
      let p := execCmd sd so st c
      let r := runBatch errs sd so p.1 rest
      (r.1, p.2 :: r.2.1, r.2.2)

namespace Eapi

/-- Embeds `Eapi.send_request` (lines 309-339): prepend the privilege
elevation command (`self._enable`, always set by `__init__`), POST the
batch, and pop the elevation entry from a successful result.  Every eAPI
request starts at the device's top-level prompt.  The `output` format
parameter affects only the wire encoding, not the device model. -/
def send_request (errs : Oracle) (sd : DiffFn) (so : OutFn)
    (st : DevState) (cmds : List String) (output : String) :
    DevState × EapiResponse :=
  let _ := output
  let r := runBatch errs sd so { st with mode := .top } ("enable" :: cmds)
  match r.2.2 with
  | some e => (r.1, .error e.msg e.code)
  | none => (r.1, .result (r.2.1.drop 1))

/-- Embeds the `Eapi.supports_sessions` property (lines 297-303).  Note the
guard is `if self._session_support:` — a Python truthiness test — so only a
cached `True` short-circuits; `None` and a cached `False` both re-probe. -/
def supports_sessions (errs : Oracle) (sd : DiffFn) (so : OutFn)
    (e : EapiClient) : EapiClient × Bool :=
  if e.sessionSupport = some true then (e, true)
  else
    let r := send_request errs sd so e.dev ["show configuration sessions"] "text"
    let sup := match r.2 with
      | .error _ _ => false
      | .result _ => true
    ({ e with dev := r.1, sessionSupport := some sup }, sup)

/-- Embeds `Eapi.get_config` (lines 378-393): render the cache key, return
the cached text on a hit, otherwise `send_request` the show command and
cache `str(out['result'][0]['output']).strip()`.  Accessing `['result']` on
an error response or `[0]` on an empty result raises (`pyError`). -/
def get_config (errs : Oracle) (sd : DiffFn) (so : OutFn)
    (e : EapiClient) (flags : Option (List String)) :
    EapiClient × Outcome String :=
  let flags := flags.getD []
  let cmd := pyStrip ("show running-config " ++ pyJoin " " flags)
  match dictGet cmd e.deviceConfigs with
  | some cfg => (e, .ok cfg)
  | none =>
    let r := send_request errs sd so e.dev [cmd] "text"
    match r.2 with
    | .error _ _ => ({ e with dev := r.1 }, .pyError "KeyError: result")
    | .result outs =>
      match outs.head? with
      | none => ({ e with dev := r.1 }, .pyError "IndexError: list index out of range")
      | some out =>
        let cfg := pyStrip out
        ({ e with dev := r.1, deviceConfigs := (cmd, cfg) :: e.deviceConfigs }, .ok cfg)

/-- Embeds `Eapi.load_config` (lines 408-456).  The fallback branch with
`commit` set evaluates `self.configure(self, config)`, a `TypeError` (three
positional arguments against two).  On a staging error the abort batch
`['configure session %s' % session, 'abort']` is sent before `fail_json`.
On success the diff is `response['result'][1]['output']` of the second
request; reading `['result']` of an error response raises `KeyError`. -/
def load_config (errs : Oracle) (sd : DiffFn) (so : OutFn)
    (env : Option String) (t : Nat) (e : EapiClient)
    (config : List String) (commit : Bool) (replace : Bool) :
    EapiClient × Outcome LoadResult :=
  let p := supports_sessions errs sd so e
  let e := p.1
  if ¬(useSessionFlag env ∧ p.2) then
    if commit then (e, .pyError configureArityMsg)
    else
      -- self._module.warn("EOS can not check config without config session")
      (e, .ok { changed := some true })
  else
    let session := sessionName t
    let commands := ("configure session " ++ session) ::
      ((if replace then ["rollback clean-config"] else []) ++ config)
    let r1 := send_request errs sd so e.dev commands "text"
    match r1.2 with
    | .error msg code =>
      let r2 := send_request errs sd so r1.1
        ["configure session " ++ session, "abort"] "text"
      ({ e with dev := r2.1 }, .failJson msg none (some code))
    | .result _ =>
      let cmds2 := ["configure session " ++ session, "show session-config diffs",
                    if commit then "commit" else "abort"]
      let r2 := send_request errs sd so r1.1 cmds2 "text"
      match r2.2 with
      | .error _ _ => ({ e with dev := r2.1 }, .pyError "KeyError: result")
      | .result outs =>
        match outs.get? 1 with
        | none => ({ e with dev := r2.1 }, .pyError "IndexError: list index out of range")
        | some diff =>
          let res : LoadResult :=
            { session := some session,
              diff := if 0 < diff.length then some diff else none }
          ({ e with dev := r2.1 }, .ok res)

end Eapi

/-! ## Command batching (`to_command`, `is_json`, `Eapi.run_commands`) -/

/-- Embeds `is_json` (lines 459-460): the command ends with `| json`. -/
def is_json (cmd : String) : Bool :=
  pyEndsWith cmd "| json"

/-- Command dictionary produced by `to_command`'s `ComplexList` transform:
the command text and its requested output format (`prompt`/`answer` are not
used on the request-response path). -/
structure CmdSpec where
  command : String
  output : Option String
deriving DecidableEq

/-- Embeds `to_command` (lines 469-482) applied to plain command strings:
every command gets the transport's default output format — `json` for eAPI,
`text` for CLI. -/
def to_command (isEapi : Bool) (commands : List String) : List CmdSpec :=
  commands.map (fun c => { command := c, output := some (if isEapi then "json" else "text") })

/-- Embeds lines 356-358 of `Eapi.run_commands`: a trailing `| json` strips
the suffix and forces structured output for that command. -/
def resolveItem (it : CmdSpec) : CmdSpec :=
  if is_json it.command then
    { command := pyReplace it.command "| json" "", output := some "json" }
  else it

/-- Python truthiness of the loop-local `output` variable. -/
def truthyOpt : Option String → Bool
  | none => false
  | some s => s ≠ ""

/-- Embeds `item['output'] or 'json'` (line 364). -/
def orJson : Option String → String
  | none => "json"
  | some s => if s = "" then "json" else s

/-- Embeds the batching loop of `Eapi.run_commands` (lines 341-376).  State
carried by the loop: the pending `output` format, the pending `queue`, the
responses accumulated so far, and the trace of wire calls made (`wire`, one
entry `(format, commands)` per `_send`).  A `_send` whose response carries
an `error` object calls `fail_json(msg=..., code=...)` immediately. -/
def run_commandsAux (errs : Oracle) (sd : DiffFn) (so : OutFn) :
    DevState → Option String → List String → List String →
    List (String × List String) → List CmdSpec →
    DevState × List (String × List String) × Outcome (List String)
  | st, out, queue, acc, wire, [] =>
    if queue.isEmpty then (st, wire, .ok acc)
    else
      match Eapi.send_request errs sd so st queue (out.getD "json") with
      | (st1, .error m c) =>
        (st1, wire ++ [(out.getD "json", queue)], .failJson m none (some c))
      | (st1, .result outs) =>
        (st1, wire ++ [(out.getD "json", queue)], .ok (acc ++ outs))
  | st, out, queue, acc, wire, it :: rest =>
    let it := resolveItem it
    if truthyOpt out ∧ out ≠ it.output then
      match Eapi.send_request errs sd so st queue (out.getD "json") with
      | (st1, .error m c) =>
        (st1, wire ++ [(out.getD "json", queue)], .failJson m none (some c))
      | (st1, .result outs) =>
        run_commandsAux errs sd so st1 (some (orJson it.output)) [it.command]
          (acc ++ outs) (wire ++ [(out.getD "json", queue)]) rest
    else
      run_commandsAux errs sd so st (some (orJson it.output))
        (queue ++ [it.command]) acc wire rest

/-- Embeds `Eapi.run_commands` (lines 341-376).  The final unwrap loop
(`responses[index]['output'].strip()`, lines 370-374) is the identity here
because batch results are already modelled by their output strings (the
`KeyError` branch of the source).  Returns the device state, the trace of
wire calls, and the responses reassembled in input order. -/
def Eapi.run_commands (errs : Oracle) (sd : DiffFn) (so : OutFn)
    (st : DevState) (commands : List CmdSpec) :
    DevState × List (String × List String) × Outcome (List String) :=
  run_commandsAux errs sd so st none [] [] [] commands

/-! ## The oVirt VM state-control step (`ovirt_vms.py`, `control_state`) -/

/-- Observed VM status values (`otypes.VmStatus`) that `control_state`
distinguishes. -/
inductive VmStatus where
  | up
  | down
  | suspended
  | paused
  | image_locked
  | saving_state
  | powering_down
  | migrating
  | unassigned
  | unknown
deriving DecidableEq

/-- String rendering of a status value as the oVirt SDK enum formats it. -/
def vmStatusStr : VmStatus → String
  | .up => "up"
  | .down => "down"
  | .suspended => "suspended"
  | .paused => "paused"
  | .image_locked => "imagelocked"
  | .saving_state => "savingstate"
  | .powering_down => "poweringdown"
  | .migrating => "migrating"
  | .unassigned => "unassigned"
  | .unknown => "unknown"

/-- A managed VM as `control_state` sees it. -/
structure Vm where
  id : String
  status : VmStatus

/-- Remote action calls `control_state` can issue against the VM resource
(`vm_service.stop()` is the only one). -/
inductive VmRemoteAction where
  | stop
deriving DecidableEq

/-- Wait conditions `control_state` can block on (the `wait(...)` calls). -/
inductive VmWait where
  | untilDown
  | untilSuspended
  | untilDownOrUp
deriving DecidableEq

/-- Message of the `fail_json` for a terminal-invalid status
(`"Not possible to control VM, if it's in '{}' status".format(vm.status)`). -/
def invalidStateMsg (s : VmStatus) : String :=
  "Not possible to control VM, if it\x27s in \x27" ++ vmStatusStr s ++ "\x27 status"

/-- Embeds `control_state` (ovirt_vms.py lines 1690-1729): dispatch on the
observed status; returns the remote action calls issued, the wait
conditions entered, and the outcome.  `force` and `state` are
`module.params['force']` and `module.params['state']`. -/
def control_state (vm : Option Vm) (force : Bool) (state : String) :
    List VmRemoteAction × List VmWait × Outcome Unit :=
  match vm with
  | none => ([], [], .ok ())
  | some v =>
    if v.status = .image_locked then ([], [.untilDown], .ok ())
    else if v.status = .saving_state then ([], [.untilSuspended], .ok ())
    else if v.status = .unassigned ∨ v.status = .unknown then
      ([], [], .failJson (invalidStateMsg v.status) none none)
    else if v.status = .powering_down then
      if (force ∧ state = "stopped") ∨ state = "absent" then
        ([.stop], [.untilDown], .ok ())
      else ([], [.untilDownOrUp], .ok ())
    else ([], [], .ok ())

/-! ## WinRM `put_file` integrity check (`winrm.py`, lines 575-631) -/

/-- The slice of the remote exec result `put_file` inspects: the status
code, stderr text, and the `sha1` field parsed from the JSON stdout
(`none` when the key is absent). -/
structure WinRmExecResult where
  status_code : Int
  std_err : String
  sha1 : Option String
deriving DecidableEq

/-- Outcome of `put_file`: success, or a raised `AnsibleError` /
`AnsibleFileNotFound` with its message. -/
inductive PutFileOutcome where
  | ok
  | err (msg : String)
deriving DecidableEq

/-- Embeds `Connection.put_file` after the upload ran: `localExists` is the
`os.path.exists(in_path)` test, `local_sha1` is `secure_hash(in_path)`, and
`res` is the remote exec result.  The second component lists the local
filesystem operations performed on the destination — always empty, because
no branch of the source deletes or truncates the partially written remote
file. -/
def put_file (localExists : Bool) (local_sha1 : String)
    (res : WinRmExecResult) : PutFileOutcome × List String :=
  if ¬localExists then
    (.err "file or module does not exist", [])
  else if res.status_code ≠ 0 then
    (.err res.std_err, [])
  else
    match res.sha1 with
    | none => (.err "Remote sha1 was not returned", [])
    | some r =>
      if r = "" then (.err "Remote sha1 was not returned", [])
      else if r ≠ local_sha1 then
        (.err ("Remote sha1 hash " ++ r ++ " does not match local hash " ++ local_sha1), [])
      else (.ok, [])

/-! ## Scaffolding predicates for the theorems -/

/-- A plain configuration line: one the device treats as session content,
not as a session-control verb (`end`, `abort`, `commit`,
`show session-config diffs`, `configure`, `configure session ...`). -/
def PlainCfg (c : String) : Prop :=
  parseCmd c = .plain c

instance (c : String) : Decidable (PlainCfg c) :=
  inferInstanceAs (Decidable (parseCmd c = .plain c))

/-- The transport does not fail on the session-control commands the clients
issue around a session named `s`. -/
def CtlOk (errs : Oracle) (s : String) : Prop :=
  errs "end" = none ∧ errs "abort" = none ∧ errs "commit" = none ∧
  errs "enable" = none ∧ errs ("configure session " ++ s) = none ∧
  errs "rollback clean-config" = none ∧
  errs "show session-config diffs" = none ∧
  errs "show configuration sessions" = none

instance (errs : Oracle) (s : String) : Decidable (CtlOk errs s) := by
  unfold CtlOk
  infer_instance

/-! ## Concrete fixtures for witnesses and counterexamples -/

/-- An empty device sitting at the top-level prompt. -/
def dev0 : DevState := { running := [], sessions := fun _ => none, mode := .top }

/-- Diff oracle for concrete runs: render the staged lines. -/
def sd0 : DiffFn := fun _ staged => pyJoin "\n" staged

/-- Show-output oracle for concrete runs: echo the command. -/
def so0 : OutFn := fun c => c

/-- A transport that never fails. -/
def errs0 : Oracle := fun _ => none

/-- A transport that fails exactly on the line `hostname foo`. -/
def errsHost : Oracle :=
  fun c => if c = "hostname foo" then some ⟨"bad command", 1002⟩ else none

/-- A `Cli` client that already probed session support positively. -/
def cli0 : CliClient := { dev := dev0, sessionSupport := some true, deviceConfigs := [] }

/-- An `Eapi` client that already probed session support positively. -/
def eap0 : EapiClient := { dev := dev0, sessionSupport := some true, deviceConfigs := [] }

/-- A transport that fails exactly on the session-support probe. -/
def errsProbe : Oracle :=
  fun c => if c = "show configuration sessions" then some ⟨"unsupported", 1002⟩ else none

/-- A `Cli` client that has not probed session support yet. -/
def cliFresh : CliClient := { dev := dev0, sessionSupport := none, deviceConfigs := [] }

/-- An `Eapi` client that has not probed session support yet. -/
def eapFresh : EapiClient := { dev := dev0, sessionSupport := none, deviceConfigs := [] }

/-- An `Eapi` client whose cached probe result is negative. -/
def eapNeg : EapiClient := { dev := dev0, sessionSupport := some false, deviceConfigs := [] }

/-! ## Characterization lemmas for the device model -/

lemma data_append (s t : String) : (s ++ t).data = s.data ++ t.data := rfl

lemma mk_data (s : String) : String.mk s.data = s := rfl

lemma cfgSess_ne (s u : String) (h : u.data.take 18 ≠ "configure session ".data) :
    ("configure session " ++ s) ≠ u := by
  intro he
  apply h
  rw [← he, data_append]
  exact List.take_left' (by decide)

lemma cfgSess_data_take (s : String) :
    (("configure session " ++ s).data).take 18 = "configure session ".data := by
  rw [data_append]
  exact List.take_left' (by decide)

lemma cfgSess_data_drop (s : String) :
    (("configure session " ++ s).data).drop 18 = s.data := by
  rw [data_append]
  exact List.drop_left' (by decide)

/-- Parsing the session-opening command recognises the session name. -/
lemma parse_enter (s : String) : parseCmd ("configure session " ++ s) = .enter s := by
  unfold parseCmd
  rw [if_neg (cfgSess_ne s "end" (by decide)),
      if_neg (cfgSess_ne s "abort" (by decide)),
      if_neg (cfgSess_ne s "commit" (by decide)),
      if_neg (cfgSess_ne s "show session-config diffs" (by decide)),
      if_pos (cfgSess_data_take s)]
  rw [cfgSess_data_drop, mk_data]

lemma PlainCfg_ne_end {c : String} (h : PlainCfg c) : c ≠ "end" := by
  intro he
  rw [he] at h
  exact absurd h (by decide)

lemma exec_top_enter {st : DevState} (sd : DiffFn) (so : OutFn) {c : String}
    {n : String} (h : st.mode = .top) (hp : parseCmd c = .enter n) :
    execCmd sd so st c =
      ({ st with sessions := ensureSession n st.sessions, mode := .session n }, "") := by
  unfold execCmd
  rw [h, hp]

lemma exec_session_plain {st : DevState} (sd : DiffFn) (so : OutFn) {c : String}
    {n : String} (h : st.mode = .session n) (hp : parseCmd c = .plain c) :
    execCmd sd so st c = ({ st with sessions := stageLine n c st.sessions }, "") := by
  unfold execCmd
  rw [h, hp]

lemma exec_session_abort {st : DevState} (sd : DiffFn) (so : OutFn)
    {n : String} (h : st.mode = .session n) :
    execCmd sd so st "abort" =
      ({ st with sessions := clearSession n st.sessions, mode := .top }, "") := by
  unfold execCmd
  rw [h, show parseCmd "abort" = .abortc from by decide]

lemma exec_session_end {st : DevState} (sd : DiffFn) (so : OutFn)
    {n : String} (h : st.mode = .session n) :
    execCmd sd so st "end" = ({ st with mode := .top }, "") := by
  unfold execCmd
  rw [h, show parseCmd "end" = .endc from by decide]

lemma exec_session_commit {st : DevState} (sd : DiffFn) (so : OutFn)
    {n : String} (h : st.mode = .session n) :
    execCmd sd so st "commit" =
      ({ running := st.running ++ stagedOf st n,
         sessions := clearSession n st.sessions, mode := .top }, "") := by
  unfold execCmd
  rw [h, show parseCmd "commit" = .commitc from by decide]

lemma exec_session_show {st : DevState} (sd : DiffFn) (so : OutFn)
    {n : String} (h : st.mode = .session n) :
    execCmd sd so st "show session-config diffs" = (st, sd st.running (stagedOf st n)) := by
  unfold execCmd
  rw [h, show parseCmd "show session-config diffs" = .showDiffs from by decide]

lemma exec_top_plain {st : DevState} (sd : DiffFn) (so : OutFn) {c : String}
    (h : st.mode = .top) (hp : parseCmd c = .plain c) :
    execCmd sd so st c = (st, so c) := by
  unfold execCmd
  rw [h, hp]

lemma exec_top_end {st : DevState} (sd : DiffFn) (so : OutFn)
    (h : st.mode = .top) : execCmd sd so st "end" = (st, so "end") := by
  unfold execCmd
  rw [h, show parseCmd "end" = .endc from by decide]

lemma clear_ensure (s : String) (f : String → Option (List String)) :
    clearSession s (ensureSession s f) = clearSession s f := by
  funext k
  unfold clearSession ensureSession
  by_cases h : k = s <;> simp [h]

/-- Executing any command that is neither `commit` nor `configure` from a
non-config prompt leaves the running configuration unchanged and does not
enter config mode. -/
lemma exec_keeps {st : DevState} (sd : DiffFn) (so : OutFn) {c : String}
    (h : st.mode ≠ .config)
    (hc : parseCmd c ≠ .commitc) (hcfg : parseCmd c ≠ .configure) :
    (execCmd sd so st c).1.running = st.running ∧
      (execCmd sd so st c).1.mode ≠ .config := by
  unfold execCmd
  cases hm : st.mode with
  | config => exact absurd hm h
  | top => cases hp : parseCmd c <;> simp_all
  | session n => cases hp : parseCmd c <;> simp_all

lemma PlainCfg_ne_commitc {c : String} (h : PlainCfg c) : parseCmd c ≠ .commitc := by
  rw [h]
  intro hx
  cases hx

lemma PlainCfg_ne_configure {c : String} (h : PlainCfg c) : parseCmd c ≠ .configure := by
  rw [h]
  intro hx
  cases hx

/-- A batch of commands none of which is `commit` or `configure` preserves
the running configuration and stays out of config mode. -/
lemma runBatch_keeps (errs : Oracle) (sd : DiffFn) (so : OutFn) :
    ∀ (cmds : List String) (st : DevState), st.mode ≠ .config →
      (∀ c ∈ cmds, parseCmd c ≠ .commitc ∧ parseCmd c ≠ .configure) →
      (runBatch errs sd so st cmds).1.running = st.running ∧
        (runBatch errs sd so st cmds).1.mode ≠ .config
  | [], st, h, _ => ⟨rfl, h⟩
  | c :: rest, st, h, hall => by
    unfold runBatch
    cases he : errs c with
    | some e => exact ⟨rfl, h⟩
    | none =>
      have hc := hall c (List.mem_cons_self c rest)
      have hk := exec_keeps sd so h hc.1 hc.2
      have ih := runBatch_keeps errs sd so rest (execCmd sd so st c).1 hk.2
        (fun x hx => hall x (List.mem_cons_of_mem c hx))
      exact ⟨ih.1.trans hk.1, ih.2⟩

/-- Staging plain configuration lines inside an open session `n`: the
running configuration and prompt mode are preserved, other sessions are
untouched, the first transport error (if any) is the first failing
command's, and on success the session has all the lines appended in
order. -/
lemma send_configAux_session (errs : Oracle) (sd : DiffFn) (so : OutFn) :
    ∀ (cmds : List String) (st : DevState) (m : Bool) (n : String),
      st.mode = .session n → (st.sessions n).isSome → (∀ c ∈ cmds, PlainCfg c) →
      (Cli.send_configAux errs sd so st m cmds).2.1.running = st.running ∧
      (Cli.send_configAux errs sd so st m cmds).2.1.mode = .session n ∧
      (∀ k, k ≠ n →
        (Cli.send_configAux errs sd so st m cmds).2.1.sessions k = st.sessions k) ∧
      (Cli.send_configAux errs sd so st m cmds).2.2 = cmds.findSome? errs ∧
      ((Cli.send_configAux errs sd so st m cmds).2.2 = none →
        (Cli.send_configAux errs sd so st m cmds).2.1.sessions n =
          some ((st.sessions n).getD [] ++ cmds))
  | [], st, m, n, h, hopen, _ => by
    obtain ⟨l, hl⟩ := Option.isSome_iff_exists.mp hopen
    exact ⟨rfl, h, fun k _ => rfl, rfl, fun _ => by
      rw [show (Cli.send_configAux errs sd so st m []).2.1 = st from rfl, hl]; simp⟩
  | c :: rest, st, m, n, h, hopen, hall => by
    have hp := hall c (List.mem_cons_self c rest)
    have hne := PlainCfg_ne_end hp
    unfold Cli.send_configAux
    rw [if_neg hne]
    unfold cliGet
    cases he : errs c with
    | some e =>
      refine ⟨rfl, h, fun k _ => rfl, ?_, fun hx => by simp at hx⟩
      rw [List.findSome?_cons, he]
    | none =>
      rw [exec_session_plain sd so h hp]
      have ih := send_configAux_session errs sd so rest
        { st with sessions := stageLine n c st.sessions }
        (if "banner".data.isPrefixOf c.data || m then true
         else if c = "EOF" && m then false else m) n h (by simp [stageLine])
        (fun x hx => hall x (List.mem_cons_of_mem c hx))
      refine ⟨ih.1, ih.2.1, ?_, ?_, ?_⟩
      · intro k hk
        rw [ih.2.2.1 k hk]
        simp [stageLine, hk]
      · rw [ih.2.2.2.1, List.findSome?_cons, he]
      · intro hx
        rw [ih.2.2.2.2 hx]
        simp [stageLine, List.append_assoc]

/-- Specification of `Cli.close_session` when the transport delivers the
three control commands: from any prompt state it removes session `s`,
preserves the running configuration and all other sessions, and returns to
the top-level prompt with no error. -/
lemma close_session_spec (errs : Oracle) (sd : DiffFn) (so : OutFn)
    (st : DevState) (s : String)
    (h1 : errs "end" = none) (h2 : errs ("configure session " ++ s) = none)
    (h3 : errs "abort" = none) :
    Cli.close_session errs sd so st s =
      ({ running := st.running, sessions := clearSession s st.sessions,
         mode := .top }, none) := by
  obtain ⟨run, sess, mode⟩ := st
  unfold Cli.close_session cliGet
  rw [h1, h2, h3]
  dsimp only
  cases mode with
  | top =>
    rw [show execCmd sd so ⟨run, sess, Mode.top⟩ "end" = (⟨run, sess, Mode.top⟩, so "end") from rfl]
    dsimp only
    rw [exec_top_enter sd so rfl (parse_enter s)]
    dsimp only
    rw [exec_session_abort sd so rfl]
    dsimp only
    rw [clear_ensure]
  | config =>
    rw [show execCmd sd so ⟨run, sess, Mode.config⟩ "end" = (⟨run, sess, Mode.top⟩, "") from rfl]
    dsimp only
    rw [exec_top_enter sd so rfl (parse_enter s)]
    dsimp only
    rw [exec_session_abort sd so rfl]
    dsimp only
    rw [clear_ensure]
  | session n =>
    rw [show execCmd sd so ⟨run, sess, Mode.session n⟩ "end" = (⟨run, sess, Mode.top⟩, "") from rfl]
    dsimp only
    rw [exec_top_enter sd so rfl (parse_enter s)]
    dsimp only
    rw [exec_session_abort sd so rfl]
    dsimp only
    rw [clear_ensure]

/-- A `Cli` client with a cached probe result returns it without touching
the transport. -/
lemma cli_supports_cached (errs : Oracle) (sd : DiffFn) (so : OutFn)
    {cli : CliClient} {b : Bool} (h : cli.sessionSupport = some b) :
    Cli.supports_sessions errs sd so cli = (cli, b) := by
  unfold Cli.supports_sessions
  rw [h]

/-- An `Eapi` client with a cached positive probe result returns it without
touching the transport. -/
lemma eapi_supports_cached_true (errs : Oracle) (sd : DiffFn) (so : OutFn)
    {e : EapiClient} (h : e.sessionSupport = some true) :
    Eapi.supports_sessions errs sd so e = (e, true) := by
  unfold Eapi.supports_sessions
  rw [if_pos h]

lemma parse_enable : parseCmd "enable" = .plain "enable" := by decide

/-- Executing plain configuration lines inside an open session `n` via the
batch runner: running configuration and mode are preserved, other sessions
are untouched, the error is the first failing command's, and on success
every line is staged in order with empty per-command output. -/
lemma runBatch_session (errs : Oracle) (sd : DiffFn) (so : OutFn) :
    ∀ (cmds : List String) (st : DevState) (n : String),
      st.mode = .session n → (st.sessions n).isSome → (∀ c ∈ cmds, PlainCfg c) →
      (runBatch errs sd so st cmds).1.running = st.running ∧
      (runBatch errs sd so st cmds).1.mode = .session n ∧
      (∀ k, k ≠ n → (runBatch errs sd so st cmds).1.sessions k = st.sessions k) ∧
      (runBatch errs sd so st cmds).2.2 = cmds.findSome? errs ∧
      ((runBatch errs sd so st cmds).2.2 = none →
        (runBatch errs sd so st cmds).1.sessions n =
          some ((st.sessions n).getD [] ++ cmds) ∧
        (runBatch errs sd so st cmds).2.1 = cmds.map (fun _ => ""))
  | [], st, n, h, hopen, _ => by
    obtain ⟨l, hl⟩ := Option.isSome_iff_exists.mp hopen
    exact ⟨rfl, h, fun k _ => rfl, rfl, fun _ =>
      ⟨by rw [show (runBatch errs sd so st []).1 = st from rfl, hl]; simp, rfl⟩⟩
  | c :: rest, st, n, h, hopen, hall => by
    have hp := hall c (List.mem_cons_self c rest)
    unfold runBatch
    cases he : errs c with
    | some e =>
      refine ⟨rfl, h, fun k _ => rfl, ?_, fun hx => by simp at hx⟩
      rw [List.findSome?_cons, he]
    | none =>
      rw [exec_session_plain sd so h hp]
      have ih := runBatch_session errs sd so rest
        { st with sessions := stageLine n c st.sessions } n h (by simp [stageLine])
        (fun x hx => hall x (List.mem_cons_of_mem c hx))
      refine ⟨ih.1, ih.2.1, ?_, ?_, ?_⟩
      · intro k hk
        rw [ih.2.2.1 k hk]
        simp [stageLine, hk]
      · rw [ih.2.2.2.1, List.findSome?_cons, he]
      · intro hx
        dsimp only at hx ⊢
        refine ⟨?_, ?_⟩
        · rw [(ih.2.2.2.2 hx).1]
          simp [stageLine, List.append_assoc]
        · rw [(ih.2.2.2.2 hx).2]
          rfl

/-- Specification of the eAPI staging request
`['configure session NAME', *lines]`: the running configuration is
preserved, the response is an error exactly at the first failing line, and
on success the session holds all the lines. -/
lemma send_request_stage (errs : Oracle) (sd : DiffFn) (so : OutFn)
    (st : DevState) (s : String) (cfg : List String)
    (hen : errs "enable" = none) (hcs : errs ("configure session " ++ s) = none)
    (hall : ∀ c ∈ cfg, PlainCfg c) :
    (Eapi.send_request errs sd so st (("configure session " ++ s) :: cfg) "text").1.running
        = st.running ∧
    (Eapi.send_request errs sd so st (("configure session " ++ s) :: cfg) "text").2
        = (match cfg.findSome? errs with
           | some e => .error e.msg e.code
           | none => .result ("" :: cfg.map (fun _ => ""))) ∧
    (cfg.findSome? errs = none →
      (Eapi.send_request errs sd so st (("configure session " ++ s) :: cfg) "text").1.sessions s
        = some ((st.sessions s).getD [] ++ cfg)) := by
  obtain ⟨run, sess, mode⟩ := st
  unfold Eapi.send_request
  simp only [runBatch, hen, hcs]
  rw [show execCmd sd so ⟨run, sess, Mode.top⟩ "enable" = (⟨run, sess, Mode.top⟩, so "enable") from rfl]
  dsimp only
  rw [exec_top_enter sd so rfl (parse_enter s)]
  dsimp only
  have hopen : ((({ running := run, sessions := ensureSession s sess, mode := Mode.session s } : DevState)).sessions s).isSome := by
    simp [ensureSession]
  have hb := runBatch_session errs sd so cfg
    { running := run, sessions := ensureSession s sess, mode := Mode.session s } s rfl hopen hall
  cases hfs : cfg.findSome? errs with
  | some e =>
    rw [hfs] at hb
    rw [hb.2.2.2.1]
    exact ⟨hb.1, rfl, fun hx => by simp at hx⟩
  | none =>
    rw [hfs] at hb
    have hsucc := hb.2.2.2.2 hb.2.2.2.1
    rw [hb.2.2.2.1]
    refine ⟨hb.1, ?_, fun _ => ?_⟩
    · dsimp only
      rw [hsucc.2]
      rfl
    · rw [hsucc.1]
      simp [ensureSession]

/-- Specification of the eAPI abort batch
`['configure session NAME', 'abort']`: it removes the session and preserves
running configuration. -/
lemma send_request_abort (errs : Oracle) (sd : DiffFn) (so : OutFn)
    (st : DevState) (s : String)
    (hen : errs "enable" = none) (hcs : errs ("configure session " ++ s) = none)
    (hab : errs "abort" = none) :
    Eapi.send_request errs sd so st ["configure session " ++ s, "abort"] "text" =
      ({ running := st.running, sessions := clearSession s st.sessions, mode := .top },
       .result ["", ""]) := by
  obtain ⟨run, sess, mode⟩ := st
  unfold Eapi.send_request
  simp only [runBatch, hen, hcs, hab]
  rw [show execCmd sd so ⟨run, sess, Mode.top⟩ "enable" = (⟨run, sess, Mode.top⟩, so "enable") from rfl]
  dsimp only
  rw [exec_top_enter sd so rfl (parse_enter s)]
  dsimp only
  rw [exec_session_abort sd so rfl]
  dsimp only
  rw [clear_ensure]
  rfl

/-- Specification of the eAPI finishing batch with `abort`: report the diff
of the staged session, then discard it; running configuration is
preserved. -/
lemma send_request_diff_abort (errs : Oracle) (sd : DiffFn) (so : OutFn)
    (st : DevState) (s : String)
    (hen : errs "enable" = none) (hcs : errs ("configure session " ++ s) = none)
    (hsd : errs "show session-config diffs" = none) (hab : errs "abort" = none) :
    Eapi.send_request errs sd so st
      ["configure session " ++ s, "show session-config diffs", "abort"] "text" =
    ({ running := st.running, sessions := clearSession s st.sessions, mode := .top },
     .result ["", sd st.running (stagedOf st s), ""]) := by
  obtain ⟨run, sess, mode⟩ := st
  unfold Eapi.send_request
  simp only [runBatch, hen, hcs, hsd, hab]
  rw [show execCmd sd so ⟨run, sess, Mode.top⟩ "enable" = (⟨run, sess, Mode.top⟩, so "enable") from rfl]
  dsimp only
  rw [exec_top_enter sd so rfl (parse_enter s)]
  dsimp only
  rw [exec_session_show sd so rfl]
  dsimp only
  rw [exec_session_abort sd so rfl]
  dsimp only
  rw [clear_ensure]
  simp [stagedOf, ensureSession]

/-- Specification of the eAPI finishing batch with `commit`: report the
diff, then apply the staged lines to the running configuration. -/
lemma send_request_diff_commit (errs : Oracle) (sd : DiffFn) (so : OutFn)
    (st : DevState) (s : String)
    (hen : errs "enable" = none) (hcs : errs ("configure session " ++ s) = none)
    (hsd : errs "show session-config diffs" = none) (hcm : errs "commit" = none) :
    Eapi.send_request errs sd so st
      ["configure session " ++ s, "show session-config diffs", "commit"] "text" =
    ({ running := st.running ++ stagedOf st s, sessions := clearSession s st.sessions,
       mode := .top },
     .result ["", sd st.running (stagedOf st s), ""]) := by
  obtain ⟨run, sess, mode⟩ := st
  unfold Eapi.send_request
  simp only [runBatch, hen, hcs, hsd, hcm]
  rw [show execCmd sd so ⟨run, sess, Mode.top⟩ "enable" = (⟨run, sess, Mode.top⟩, so "enable") from rfl]
  dsimp only
  rw [exec_top_enter sd so rfl (parse_enter s)]
  dsimp only
  rw [exec_session_show sd so rfl]
  dsimp only
  rw [exec_session_commit sd so rfl]
  dsimp only
  rw [clear_ensure]
  simp [stagedOf, ensureSession]

/-- One interactive transport call with a command that is neither `commit`
nor `configure` preserves running configuration, whatever the transport
does. -/
lemma cliGet_keeps (errs : Oracle) (sd : DiffFn) (so : OutFn) {st : DevState}
    {c : String} (h : st.mode ≠ .config)
    (hc : parseCmd c ≠ .commitc) (hcfg : parseCmd c ≠ .configure) :
    (cliGet errs sd so st c).1.running = st.running ∧
      (cliGet errs sd so st c).1.mode ≠ .config := by
  unfold cliGet
  cases he : errs c with
  | some e => exact ⟨rfl, h⟩
  | none => exact exec_keeps sd so h hc hcfg

lemma parse_enter_ne_commitc (s : String) :
    parseCmd ("configure session " ++ s) ≠ .commitc := by
  rw [parse_enter]
  intro hx
  cases hx

lemma parse_enter_ne_configure (s : String) :
    parseCmd ("configure session " ++ s) ≠ .configure := by
  rw [parse_enter]
  intro hx
  cases hx

/-- `Cli.close_session` preserves running configuration, whatever the
transport does to its three control commands. -/
lemma close_session_keeps (errs : Oracle) (sd : DiffFn) (so : OutFn)
    (st : DevState) (s : String) (h : st.mode ≠ .config) :
    (Cli.close_session errs sd so st s).1.running = st.running := by
  unfold Cli.close_session
  have h1 := @cliGet_keeps errs sd so st "end" h (by decide) (by decide)
  rcases hg1 : cliGet errs sd so st "end" with ⟨st1, r1⟩
  rw [hg1] at h1
  cases r1 with
  | error e => exact h1.1
  | ok out1 =>
    have h2 := @cliGet_keeps errs sd so st1 ("configure session " ++ s)
      h1.2 (parse_enter_ne_commitc s) (parse_enter_ne_configure s)
    rcases hg2 : cliGet errs sd so st1 ("configure session " ++ s) with ⟨st2, r2⟩
    rw [hg2] at h2
    dsimp only
    rw [hg2]
    cases r2 with
    | error e => exact h2.1.trans h1.1
    | ok out2 =>
      have h3 := @cliGet_keeps errs sd so st2 "abort" h2.2 (by decide) (by decide)
      rcases hg3 : cliGet errs sd so st2 "abort" with ⟨st3, r3⟩
      rw [hg3] at h3
      dsimp only
      rw [hg3]
      cases r3 with
      | error e => exact (h3.1.trans h2.1).trans h1.1
      | ok out3 => exact (h3.1.trans h2.1).trans h1.1

/-- An eAPI request whose commands are free of `commit` and `configure`
preserves running configuration, whatever the transport does. -/
lemma send_request_keeps (errs : Oracle) (sd : DiffFn) (so : OutFn)
    (st : DevState) (cmds : List String) (output : String)
    (hall : ∀ c ∈ cmds, parseCmd c ≠ .commitc ∧ parseCmd c ≠ .configure) :
    (Eapi.send_request errs sd so st cmds output).1.running = st.running := by
  unfold Eapi.send_request
  have hk := runBatch_keeps errs sd so ("enable" :: cmds) { st with mode := .top }
    (by intro hx; cases hx)
    (by
      intro c hc
      rcases List.mem_cons.mp hc with hc | hc
      · subst hc; exact ⟨by decide, by decide⟩
      · exact hall c hc)
  rcases hb : runBatch errs sd so { st with mode := .top } ("enable" :: cmds)
    with ⟨st', outs, err⟩
  rw [hb] at hk
  cases err with
  | some e => exact hk.1
  | none => exact hk.1

/-- The session-support probe of a `Cli` client whose connection sits at the
top-level prompt does not change the device state. -/
lemma cli_supports_dev (errs : Oracle) (sd : DiffFn) (so : OutFn)
    (cli : CliClient) (hm : cli.dev.mode = .top) :
    (Cli.supports_sessions errs sd so cli).1.dev = cli.dev := by
  unfold Cli.supports_sessions
  cases hs : cli.sessionSupport with
  | some b => rfl
  | none =>
    cases he : errs "show configuration sessions" with
    | some e => rfl
    | none =>
      dsimp only
      rw [exec_top_plain sd so hm (by decide)]

lemma parse_rollback : parseCmd "rollback clean-config" = .plain "rollback clean-config" := by
  decide

/-- Core behaviour of `Cli.load_config` when a staged command raises: the
session is aborted (via `close_session`) and the module fails with the
original transport error; the running configuration is untouched and the
session is gone from the device. -/
lemma cli_load_config_stage_err (errs : Oracle) (sd : DiffFn) (so : OutFn)
    (env : Option String) (t : Nat) (cli : CliClient) (commands : List String)
    (commit replace : Bool) (err : TransportErr)
    (hsup : cli.sessionSupport = some true) (henv : useSessionFlag env = true)
    (hmode : cli.dev.mode = .top)
    (hall : ∀ c ∈ commands, PlainCfg c) (hctl : CtlOk errs (sessionName t))
    (hfail : commands.findSome? errs = some err) :
    (Cli.load_config errs sd so env t cli commands commit replace).2 =
      .failJson (stageFailMsg commands) (some err.msg) none ∧
    (Cli.load_config errs sd so env t cli commands commit replace).1.dev.running =
      cli.dev.running ∧
    (Cli.load_config errs sd so env t cli commands commit replace).1.dev.sessions
      (sessionName t) = none := by
  obtain ⟨hend, hab, hcm, hen, hcs, hrb, hsd2, hpr⟩ := hctl
  unfold Cli.load_config
  rw [cli_supports_cached errs sd so hsup]
  dsimp only
  rw [if_neg (by simp [henv])]
  unfold cliGet
  rw [hcs]
  dsimp only
  rw [exec_top_enter sd so hmode (parse_enter (sessionName t))]
  dsimp only
  cases replace with
  | true =>
    rw [if_pos rfl, hrb]
    dsimp only
    rw [@exec_session_plain
      { running := cli.dev.running,
        sessions := ensureSession (sessionName t) cli.dev.sessions,
        mode := Mode.session (sessionName t) } sd so
      "rollback clean-config" (sessionName t) rfl parse_rollback]
    dsimp only
    have hsc := send_configAux_session errs sd so commands
      { running := cli.dev.running,
        sessions := stageLine (sessionName t) "rollback clean-config"
          (ensureSession (sessionName t) cli.dev.sessions),
        mode := Mode.session (sessionName t) } false (sessionName t)
      rfl (by simp [stageLine]) hall
    rcases hg : Cli.send_configAux errs sd so
      { running := cli.dev.running,
        sessions := stageLine (sessionName t) "rollback clean-config"
          (ensureSession (sessionName t) cli.dev.sessions),
        mode := Mode.session (sessionName t) } false commands with ⟨tr, stF, errF⟩
    rw [hg] at hsc
    dsimp only at hsc
    rw [show Cli.send_config errs sd so
      { running := cli.dev.running,
        sessions := stageLine (sessionName t) "rollback clean-config"
          (ensureSession (sessionName t) cli.dev.sessions),
        mode := Mode.session (sessionName t) } commands =
      Cli.send_configAux errs sd so
      { running := cli.dev.running,
        sessions := stageLine (sessionName t) "rollback clean-config"
          (ensureSession (sessionName t) cli.dev.sessions),
        mode := Mode.session (sessionName t) } false commands from rfl, hg]
    have herrF : errF = some err := hsc.2.2.2.1.trans hfail
    subst herrF
    dsimp only
    rw [close_session_spec errs sd so stF (sessionName t) hend hcs hab]
    dsimp only
    refine ⟨rfl, hsc.1, by simp [clearSession]⟩
  | false =>
    rw [if_neg (by simp)]
    dsimp only
    have hsc := send_configAux_session errs sd so commands
      { running := cli.dev.running,
        sessions := ensureSession (sessionName t) cli.dev.sessions,
        mode := Mode.session (sessionName t) } false (sessionName t)
      rfl (by simp [ensureSession]) hall
    rcases hg : Cli.send_configAux errs sd so
      { running := cli.dev.running,
        sessions := ensureSession (sessionName t) cli.dev.sessions,
        mode := Mode.session (sessionName t) } false commands with ⟨tr, stF, errF⟩
    rw [hg] at hsc
    dsimp only at hsc
    rw [show Cli.send_config errs sd so
      { running := cli.dev.running,
        sessions := ensureSession (sessionName t) cli.dev.sessions,
        mode := Mode.session (sessionName t) } commands =
      Cli.send_configAux errs sd so
      { running := cli.dev.running,
        sessions := ensureSession (sessionName t) cli.dev.sessions,
        mode := Mode.session (sessionName t) } false commands from rfl, hg]
    have herrF : errF = some err := hsc.2.2.2.1.trans hfail
    subst herrF
    dsimp only
    rw [close_session_spec errs sd so stF (sessionName t) hend hcs hab]
    dsimp only
    refine ⟨rfl, hsc.1, by simp [clearSession]⟩

/-- Core behaviour of `Cli.load_config` with `commit=False` when staging
succeeds: the staged changes are aborted, the computed session diff is
returned, the running configuration is untouched and the session is gone
from the device. -/
lemma cli_load_config_check_mode (errs : Oracle) (sd : DiffFn) (so : OutFn)
    (env : Option String) (t : Nat) (cli : CliClient) (commands : List String)
    (replace : Bool)
    (hsup : cli.sessionSupport = some true) (henv : useSessionFlag env = true)
    (hmode : cli.dev.mode = .top)
    (hfresh : cli.dev.sessions (sessionName t) = none)
    (hall : ∀ c ∈ commands, PlainCfg c) (hctl : CtlOk errs (sessionName t))
    (hok : commands.findSome? errs = none) :
    (Cli.load_config errs sd so env t cli commands false replace).2 =
      .ok { session := some (sessionName t),
            diff :=
              if sd cli.dev.running
                  ((if replace then ["rollback clean-config"] else []) ++ commands) ≠ ""
              then some (pyStrip (sd cli.dev.running
                  ((if replace then ["rollback clean-config"] else []) ++ commands)))
              else none } ∧
    (Cli.load_config errs sd so env t cli commands false replace).1.dev.running =
      cli.dev.running ∧
    (Cli.load_config errs sd so env t cli commands false replace).1.dev.sessions
      (sessionName t) = none := by
  obtain ⟨hend, hab, hcm, hen, hcs, hrb, hsd2, hpr⟩ := hctl
  unfold Cli.load_config
  rw [cli_supports_cached errs sd so hsup]
  dsimp only
  rw [if_neg (by simp [henv])]
  unfold cliGet
  rw [hcs]
  dsimp only
  rw [exec_top_enter sd so hmode (parse_enter (sessionName t))]
  dsimp only
  cases replace with
  | true =>
    rw [if_pos rfl, hrb]
    dsimp only
    rw [@exec_session_plain
      { running := cli.dev.running,
        sessions := ensureSession (sessionName t) cli.dev.sessions,
        mode := Mode.session (sessionName t) } sd so
      "rollback clean-config" (sessionName t) rfl parse_rollback]
    dsimp only
    have hsc := send_configAux_session errs sd so commands
      { running := cli.dev.running,
        sessions := stageLine (sessionName t) "rollback clean-config"
          (ensureSession (sessionName t) cli.dev.sessions),
        mode := Mode.session (sessionName t) } false (sessionName t)
      rfl (by simp [stageLine]) hall
    rcases hg : Cli.send_configAux errs sd so
      { running := cli.dev.running,
        sessions := stageLine (sessionName t) "rollback clean-config"
          (ensureSession (sessionName t) cli.dev.sessions),
        mode := Mode.session (sessionName t) } false commands with ⟨tr, stF, errF⟩
    rw [hg] at hsc
    dsimp only at hsc
    rw [show Cli.send_config errs sd so
      { running := cli.dev.running,
        sessions := stageLine (sessionName t) "rollback clean-config"
          (ensureSession (sessionName t) cli.dev.sessions),
        mode := Mode.session (sessionName t) } commands =
      Cli.send_configAux errs sd so
      { running := cli.dev.running,
        sessions := stageLine (sessionName t) "rollback clean-config"
          (ensureSession (sessionName t) cli.dev.sessions),
        mode := Mode.session (sessionName t) } false commands from rfl, hg]
    have herrF : errF = none := hsc.2.2.2.1.trans hok
    subst herrF
    have hstg := hsc.2.2.2.2 rfl
    dsimp only
    rw [hsd2]
    dsimp only
    rw [exec_session_show sd so hsc.2.1]
    dsimp only
    have hd : sd stF.running (stagedOf stF (sessionName t)) =
        sd cli.dev.running (["rollback clean-config"] ++ commands) := by
      rw [hsc.1]
      unfold stagedOf
      rw [hstg]
      simp [stageLine, ensureSession, hfresh]
    rw [if_neg (by simp)]
    rw [close_session_spec errs sd so stF (sessionName t) hend hcs hab]
    dsimp only
    refine ⟨?_, hsc.1, by simp [clearSession]⟩
    rw [hd]
    simp
  | false =>
    rw [if_neg (by simp)]
    dsimp only
    have hsc := send_configAux_session errs sd so commands
      { running := cli.dev.running,
        sessions := ensureSession (sessionName t) cli.dev.sessions,
        mode := Mode.session (sessionName t) } false (sessionName t)
      rfl (by simp [ensureSession]) hall
    rcases hg : Cli.send_configAux errs sd so
      { running := cli.dev.running,
        sessions := ensureSession (sessionName t) cli.dev.sessions,
        mode := Mode.session (sessionName t) } false commands with ⟨tr, stF, errF⟩
    rw [hg] at hsc
    dsimp only at hsc
    rw [show Cli.send_config errs sd so
      { running := cli.dev.running,
        sessions := ensureSession (sessionName t) cli.dev.sessions,
        mode := Mode.session (sessionName t) } commands =
      Cli.send_configAux errs sd so
      { running := cli.dev.running,
        sessions := ensureSession (sessionName t) cli.dev.sessions,
        mode := Mode.session (sessionName t) } false commands from rfl, hg]
    have herrF : errF = none := hsc.2.2.2.1.trans hok
    subst herrF
    have hstg := hsc.2.2.2.2 rfl
    dsimp only
    rw [hsd2]
    dsimp only
    rw [exec_session_show sd so hsc.2.1]
    dsimp only
    have hd : sd stF.running (stagedOf stF (sessionName t)) =
        sd cli.dev.running ([] ++ commands) := by
      rw [hsc.1]
      unfold stagedOf
      rw [hstg]
      simp [ensureSession, hfresh]
    rw [if_neg (by simp)]
    rw [close_session_spec errs sd so stF (sessionName t) hend hcs hab]
    dsimp only
    refine ⟨?_, hsc.1, by simp [clearSession]⟩
    rw [hd]
    simp

/-- Core behaviour of `Eapi.load_config` when a staged command fails: the
abort batch is sent (removing the session) and the module fails with the
device error's message and code; the running configuration is untouched. -/
lemma eapi_load_config_stage_err (errs : Oracle) (sd : DiffFn) (so : OutFn)
    (env : Option String) (t : Nat) (e : EapiClient) (config : List String)
    (commit replace : Bool) (err : TransportErr)
    (hsup : e.sessionSupport = some true) (henv : useSessionFlag env = true)
    (hall : ∀ c ∈ config, PlainCfg c) (hctl : CtlOk errs (sessionName t))
    (hfail : config.findSome? errs = some err) :
    (Eapi.load_config errs sd so env t e config commit replace).2 =
      .failJson err.msg none (some err.code) ∧
    (Eapi.load_config errs sd so env t e config commit replace).1.dev.running =
      e.dev.running ∧
    (Eapi.load_config errs sd so env t e config commit replace).1.dev.sessions
      (sessionName t) = none := by
  obtain ⟨hend, hab, hcm, hen, hcs, hrb, hsd2, hpr⟩ := hctl
  have hallP : ∀ c ∈ (if replace then ["rollback clean-config"] else []) ++ config,
      PlainCfg c := by
    intro c hc
    rcases List.mem_append.mp hc with h | h
    · cases replace with
      | true => simp at h; subst h; decide
      | false => simp at h
    · exact hall c h
  have hfsP : ((if replace then ["rollback clean-config"] else []) ++ config).findSome?
      errs = some err := by
    cases replace with
    | true =>
      show (("rollback clean-config" :: config).findSome? errs) = some err
      rw [List.findSome?_cons, hrb, hfail]
    | false => simpa using hfail
  unfold Eapi.load_config
  rw [eapi_supports_cached_true errs sd so hsup]
  dsimp only
  rw [if_neg (by simp [henv])]
  have hst := send_request_stage errs sd so e.dev (sessionName t)
    ((if replace then ["rollback clean-config"] else []) ++ config) hen hcs hallP
  rcases hr1 : Eapi.send_request errs sd so e.dev
    (("configure session " ++ sessionName t) ::
      ((if replace then ["rollback clean-config"] else []) ++ config)) "text"
    with ⟨dev1, resp1⟩
  rw [hr1] at hst
  dsimp only at hst
  rw [hfsP] at hst
  rw [show resp1 = EapiResponse.error err.msg err.code from hst.2.1]
  dsimp only
  rw [send_request_abort errs sd so dev1 (sessionName t) hen hcs hab]
  dsimp only
  exact ⟨rfl, hst.1, by simp [clearSession]⟩

/-- Core behaviour of `Eapi.load_config` with `commit=False` when staging
succeeds: the finishing batch reports the staged diff and aborts the
session; the running configuration is untouched. -/
lemma eapi_load_config_check_mode (errs : Oracle) (sd : DiffFn) (so : OutFn)
    (env : Option String) (t : Nat) (e : EapiClient) (config : List String)
    (replace : Bool)
    (hsup : e.sessionSupport = some true) (henv : useSessionFlag env = true)
    (hfresh : e.dev.sessions (sessionName t) = none)
    (hall : ∀ c ∈ config, PlainCfg c) (hctl : CtlOk errs (sessionName t))
    (hok : config.findSome? errs = none) :
    (Eapi.load_config errs sd so env t e config false replace).2 =
      .ok { session := some (sessionName t),
            diff :=
              if 0 < (sd e.dev.running
                  ((if replace then ["rollback clean-config"] else []) ++ config)).length
              then some (sd e.dev.running
                  ((if replace then ["rollback clean-config"] else []) ++ config))
              else none } ∧
    (Eapi.load_config errs sd so env t e config false replace).1.dev.running =
      e.dev.running ∧
    (Eapi.load_config errs sd so env t e config false replace).1.dev.sessions
      (sessionName t) = none := by
  obtain ⟨hend, hab, hcm, hen, hcs, hrb, hsd2, hpr⟩ := hctl
  have hallP : ∀ c ∈ (if replace then ["rollback clean-config"] else []) ++ config,
      PlainCfg c := by
    intro c hc
    rcases List.mem_append.mp hc with h | h
    · cases replace with
      | true => simp at h; subst h; decide
      | false => simp at h
    · exact hall c h
  have hfsP : ((if replace then ["rollback clean-config"] else []) ++ config).findSome?
      errs = none := by
    cases replace with
    | true =>
      show (("rollback clean-config" :: config).findSome? errs) = none
      rw [List.findSome?_cons, hrb, hok]
    | false => simpa using hok
  unfold Eapi.load_config
  rw [eapi_supports_cached_true errs sd so hsup]
  dsimp only
  rw [if_neg (by simp [henv])]
  have hst := send_request_stage errs sd so e.dev (sessionName t)
    ((if replace then ["rollback clean-config"] else []) ++ config) hen hcs hallP
  rcases hr1 : Eapi.send_request errs sd so e.dev
    (("configure session " ++ sessionName t) ::
      ((if replace then ["rollback clean-config"] else []) ++ config)) "text"
    with ⟨dev1, resp1⟩
  rw [hr1] at hst
  dsimp only at hst
  rw [hfsP] at hst
  rw [show resp1 = EapiResponse.result
    ("" :: ((if replace then ["rollback clean-config"] else []) ++ config).map (fun _ => ""))
    from hst.2.1]
  dsimp only
  have hstg := hst.2.2 rfl
  rw [hfresh] at hstg
  rw [show (if false = true then "commit" else "abort") = "abort" from rfl]
  rw [send_request_diff_abort errs sd so dev1 (sessionName t) hen hcs hsd2 hab]
  dsimp only
  have hd : sd dev1.running (stagedOf dev1 (sessionName t)) =
      sd e.dev.running ((if replace then ["rollback clean-config"] else []) ++ config) := by
    rw [hst.1]
    unfold stagedOf
    rw [hstg]
    simp
  rw [hd]
  exact ⟨rfl, hst.1, by simp [clearSession]⟩

/-- `send_config` with commands free of `commit` and `configure` preserves
running configuration from any non-config prompt, whatever the transport
does. -/
lemma send_configAux_keeps (errs : Oracle) (sd : DiffFn) (so : OutFn) :
    ∀ (cmds : List String) (st : DevState) (m : Bool), st.mode ≠ .config →
      (∀ c ∈ cmds, parseCmd c ≠ .commitc ∧ parseCmd c ≠ .configure) →
      (Cli.send_configAux errs sd so st m cmds).2.1.running = st.running ∧
        (Cli.send_configAux errs sd so st m cmds).2.1.mode ≠ .config
  | [], st, m, h, _ => ⟨rfl, h⟩
  | c :: rest, st, m, h, hall => by
    unfold Cli.send_configAux
    by_cases hce : c = "end"
    · rw [if_pos hce]
      exact send_configAux_keeps errs sd so rest st m h
        (fun x hx => hall x (List.mem_cons_of_mem c hx))
    · rw [if_neg hce]
      unfold cliGet
      cases he : errs c with
      | some e => exact ⟨rfl, h⟩
      | none =>
        have hc := hall c (List.mem_cons_self c rest)
        have hk := exec_keeps sd so h hc.1 hc.2
        have ih := send_configAux_keeps errs sd so rest (execCmd sd so st c).1
          (if "banner".data.isPrefixOf c.data || m then true
           else if c = "EOF" && m then false else m) hk.2
          (fun x hx => hall x (List.mem_cons_of_mem c hx))
        exact ⟨ih.1.trans hk.1, ih.2⟩

lemma PlainCfg_keeps {c : String} (h : PlainCfg c) :
    parseCmd c ≠ .commitc ∧ parseCmd c ≠ .configure :=
  ⟨PlainCfg_ne_commitc h, PlainCfg_ne_configure h⟩

/-- For every transport behaviour, `Cli.load_config` with `commit=False`
over plain configuration lines never changes the running configuration. -/
lemma cli_load_config_keeps (errs : Oracle) (sd : DiffFn) (so : OutFn)
    (env : Option String) (t : Nat) (cli : CliClient) (commands : List String)
    (replace : Bool) (hmode : cli.dev.mode = .top)
    (hall : ∀ c ∈ commands, PlainCfg c) :
    (Cli.load_config errs sd so env t cli commands false replace).1.dev.running =
      cli.dev.running := by
  unfold Cli.load_config
  have hdev := cli_supports_dev errs sd so cli hmode
  rcases hp : Cli.supports_sessions errs sd so cli with ⟨cli1, sup⟩
  rw [hp] at hdev
  dsimp only
  have hrun1 : cli1.dev.running = cli.dev.running := congrArg DevState.running hdev
  have hmode1 : cli1.dev.mode ≠ .config := by
    rw [hdev, hmode]
    intro hx
    cases hx
  split
  · exact hrun1
  · have h1 := @cliGet_keeps errs sd so cli1.dev
      ("configure session " ++ sessionName t) hmode1
      (parse_enter_ne_commitc _) (parse_enter_ne_configure _)
    rcases hg1 : cliGet errs sd so cli1.dev ("configure session " ++ sessionName t)
      with ⟨d1, r1⟩
    rw [hg1] at h1
    cases r1 with
    | error e => exact h1.1.trans hrun1
    | ok out1 =>
      dsimp only
      have run1 : d1.running = cli.dev.running := h1.1.trans hrun1
      -- reach a common state d2 after the optional rollback step
      have main : ∀ (d2 : DevState), d2.running = cli.dev.running → d2.mode ≠ .config →
          ∀ (dF : DevState) (tr : List String) (errF : Option TransportErr),
          Cli.send_configAux errs sd so d2 false commands = (tr, dF, errF) →
          dF.running = cli.dev.running ∧ dF.mode ≠ .config := by
        intro d2 hd2run hd2mode dF tr errF hg
        have hk := send_configAux_keeps errs sd so commands d2 false hd2mode
          (fun c hc => PlainCfg_keeps (hall c hc))
        rw [hg] at hk
        exact ⟨hk.1.trans hd2run, hk.2⟩
      cases replace with
      | true =>
        rw [if_pos rfl]
        have h2 := @cliGet_keeps errs sd so d1 "rollback clean-config"
          h1.2 (by decide) (by decide)
        rcases hg2 : cliGet errs sd so d1 "rollback clean-config" with ⟨d2, r2⟩
        rw [hg2] at h2
        cases r2 with
        | error e => exact h2.1.trans run1
        | ok out2 =>
          dsimp only
          have run2 : d2.running = cli.dev.running := h2.1.trans run1
          rcases hg3 : Cli.send_configAux errs sd so d2 false commands with ⟨tr, dF, errF⟩
          have hF := main d2 run2 h2.2 dF tr errF hg3
          rw [show Cli.send_config errs sd so d2 commands =
            Cli.send_configAux errs sd so d2 false commands from rfl, hg3]
          cases errF with
          | some e =>
            dsimp only
            have hcl := close_session_keeps errs sd so dF (sessionName t) hF.2
            rcases hg4 : Cli.close_session errs sd so dF (sessionName t) with ⟨dC, rC⟩
            rw [hg4] at hcl
            cases rC with
            | some e2 => exact hcl.trans hF.1
            | none => exact hcl.trans hF.1
          | none =>
            dsimp only
            have h3 := @cliGet_keeps errs sd so dF
              "show session-config diffs" hF.2 (by decide) (by decide)
            rcases hg4 : cliGet errs sd so dF "show session-config diffs" with ⟨dS, rS⟩
            rw [hg4] at h3
            cases rS with
            | error e => exact h3.1.trans hF.1
            | ok out =>
              dsimp only
              rw [if_neg (by simp)]
              have runS : dS.running = cli.dev.running := h3.1.trans hF.1
              have hcl := close_session_keeps errs sd so dS (sessionName t) h3.2
              rcases hg5 : Cli.close_session errs sd so dS (sessionName t) with ⟨dC, rC⟩
              rw [hg5] at hcl
              cases rC with
              | some e2 => exact hcl.trans runS
              | none => exact hcl.trans runS
      | false =>
        rw [if_neg (by simp)]
        dsimp only
        rcases hg3 : Cli.send_configAux errs sd so d1 false commands with ⟨tr, dF, errF⟩
        have hF := main d1 run1 h1.2 dF tr errF hg3
        rw [show Cli.send_config errs sd so d1 commands =
          Cli.send_configAux errs sd so d1 false commands from rfl, hg3]
        cases errF with
        | some e =>
          dsimp only
          have hcl := close_session_keeps errs sd so dF (sessionName t) hF.2
          rcases hg4 : Cli.close_session errs sd so dF (sessionName t) with ⟨dC, rC⟩
          rw [hg4] at hcl
          cases rC with
          | some e2 => exact hcl.trans hF.1
          | none => exact hcl.trans hF.1
        | none =>
          dsimp only
          have h3 := @cliGet_keeps errs sd so dF
            "show session-config diffs" hF.2 (by decide) (by decide)
          rcases hg4 : cliGet errs sd so dF "show session-config diffs" with ⟨dS, rS⟩
          rw [hg4] at h3
          cases rS with
          | error e => exact h3.1.trans hF.1
          | ok out =>
            dsimp only
            rw [if_neg (by simp)]
            have runS : dS.running = cli.dev.running := h3.1.trans hF.1
            have hcl := close_session_keeps errs sd so dS (sessionName t) h3.2
            rcases hg5 : Cli.close_session errs sd so dS (sessionName t) with ⟨dC, rC⟩
            rw [hg5] at hcl
            cases rC with
            | some e2 => exact hcl.trans runS
            | none => exact hcl.trans runS

/-- The eAPI session-support probe never changes the running
configuration. -/
lemma eapi_supports_keeps (errs : Oracle) (sd : DiffFn) (so : OutFn)
    (e : EapiClient) :
    (Eapi.supports_sessions errs sd so e).1.dev.running = e.dev.running := by
  unfold Eapi.supports_sessions
  split
  · rfl
  · dsimp only
    exact send_request_keeps errs sd so e.dev ["show configuration sessions"] "text"
      (by
        intro c hc
        simp only [List.mem_singleton] at hc
        subst hc
        exact ⟨by decide, by decide⟩)

/-- For every transport behaviour, `Eapi.load_config` with `commit=False`
over plain configuration lines never changes the running configuration. -/
lemma eapi_load_config_keeps (errs : Oracle) (sd : DiffFn) (so : OutFn)
    (env : Option String) (t : Nat) (e : EapiClient) (config : List String)
    (replace : Bool) (hall : ∀ c ∈ config, PlainCfg c) :
    (Eapi.load_config errs sd so env t e config false replace).1.dev.running =
      e.dev.running := by
  unfold Eapi.load_config
  have hsk := eapi_supports_keeps errs sd so e
  rcases hp : Eapi.supports_sessions errs sd so e with ⟨e1, sup⟩
  rw [hp] at hsk
  dsimp only
  split
  · exact hsk
  · have hallF : ∀ c ∈ ("configure session " ++ sessionName t) ::
        ((if replace then ["rollback clean-config"] else []) ++ config),
        parseCmd c ≠ .commitc ∧ parseCmd c ≠ .configure := by
      intro c hc
      rcases List.mem_cons.mp hc with h | h
      · subst h
        exact ⟨parse_enter_ne_commitc _, parse_enter_ne_configure _⟩
      · rcases List.mem_append.mp h with h | h
        · cases replace with
          | true => simp at h; subst h; exact ⟨by decide, by decide⟩
          | false => simp at h
        · exact PlainCfg_keeps (hall c h)
    have h1 := send_request_keeps errs sd so e1.dev
      (("configure session " ++ sessionName t) ::
        ((if replace then ["rollback clean-config"] else []) ++ config)) "text" hallF
    rcases hr1 : Eapi.send_request errs sd so e1.dev
      (("configure session " ++ sessionName t) ::
        ((if replace then ["rollback clean-config"] else []) ++ config)) "text"
      with ⟨dev1, resp1⟩
    rw [hr1] at h1
    have run1 : dev1.running = e.dev.running := h1.trans hsk
    cases resp1 with
    | error m c =>
      dsimp only
      have h2 := send_request_keeps errs sd so dev1
        ["configure session " ++ sessionName t, "abort"] "text"
        (by
          intro c hc
          rcases List.mem_cons.mp hc with h | h
          · subst h; exact ⟨parse_enter_ne_commitc _, parse_enter_ne_configure _⟩
          · simp only [List.mem_singleton] at h; subst h; exact ⟨by decide, by decide⟩)
      rcases hr2 : Eapi.send_request errs sd so dev1
        ["configure session " ++ sessionName t, "abort"] "text" with ⟨dev2, resp2⟩
      rw [hr2] at h2
      exact h2.trans run1
    | result outs =>
      dsimp only
      rw [show (if false = true then "commit" else "abort") = "abort" from rfl]
      have h2 := send_request_keeps errs sd so dev1
        ["configure session " ++ sessionName t, "show session-config diffs", "abort"]
        "text"
        (by
          intro c hc
          rcases List.mem_cons.mp hc with h | h
          · subst h; exact ⟨parse_enter_ne_commitc _, parse_enter_ne_configure _⟩
          · rcases List.mem_cons.mp h with h | h
            · subst h; exact ⟨by decide, by decide⟩
            · simp only [List.mem_singleton] at h; subst h; exact ⟨by decide, by decide⟩)
      rcases hr2 : Eapi.send_request errs sd so dev1
        ["configure session " ++ sessionName t, "show session-config diffs", "abort"]
        "text" with ⟨dev2, resp2⟩
      rw [hr2] at h2
      have run2 : dev2.running = e.dev.running := h2.trans run1
      cases resp2 with
      | error m c => exact run2
      | result outs2 =>
        dsimp only
        cases houts : outs2.get? 1 with
        | none => exact run2
        | some diff => exact run2

/-! ## Claim theorems -/

/-- C1: for every command list, if the transport raises an error while
staging inside an open configuration session, `load_config` (on both the
interactive and the request-response transport) aborts that session inside
the session context and fails with the original transport error; the
running configuration is untouched and no half-staged session is left open
on the device. -/
theorem load_config_aborts_on_stage_error
    (errs errsE : Oracle) (sd sdE : DiffFn) (so soE : OutFn)
    (env envE : Option String) (t tE : Nat)
    (cli : CliClient) (eap : EapiClient)
    (commands config : List String) (commit commitE replace replaceE : Bool)
    (err errE : TransportErr)
    (hsup : cli.sessionSupport = some true) (henv : useSessionFlag env = true)
    (hmode : cli.dev.mode = .top) (hall : ∀ c ∈ commands, PlainCfg c)
    (hctl : CtlOk errs (sessionName t))
    (hfail : commands.findSome? errs = some err)
    (hsupE : eap.sessionSupport = some true) (henvE : useSessionFlag envE = true)
    (hallE : ∀ c ∈ config, PlainCfg c) (hctlE : CtlOk errsE (sessionName tE))
    (hfailE : config.findSome? errsE = some errE) :
    (Cli.load_config errs sd so env t cli commands commit replace).2 =
      .failJson (stageFailMsg commands) (some err.msg) none ∧
    (Cli.load_config errs sd so env t cli commands commit replace).1.dev.sessions
      (sessionName t) = none ∧
    (Cli.load_config errs sd so env t cli commands commit replace).1.dev.running =
      cli.dev.running ∧
    (Eapi.load_config errsE sdE soE envE tE eap config commitE replaceE).2 =
      .failJson errE.msg none (some errE.code) ∧
    (Eapi.load_config errsE sdE soE envE tE eap config commitE replaceE).1.dev.sessions
      (sessionName tE) = none ∧
    (Eapi.load_config errsE sdE soE envE tE eap config commitE replaceE).1.dev.running =
      eap.dev.running := by
  obtain ⟨h1, h2, h3⟩ := cli_load_config_stage_err errs sd so env t cli commands
    commit replace err hsup henv hmode hall hctl hfail
  obtain ⟨g1, g2, g3⟩ := eapi_load_config_stage_err errsE sdE soE envE tE eap config
    commitE replaceE errE hsupE henvE hallE hctlE hfailE
  exact ⟨h1, h3, h2, g1, g3, g2⟩

/-- Witness for C1 at a concrete failing line. -/
theorem load_config_aborts_on_stage_error_witness :
    (Cli.load_config errsHost sd0 so0 none 1 cli0 ["hostname foo"] false false).2 =
      .failJson (stageFailMsg ["hostname foo"]) (some "bad command") none ∧
    (Cli.load_config errsHost sd0 so0 none 1 cli0 ["hostname foo"] false false).1.dev.sessions
      (sessionName 1) = none ∧
    (Cli.load_config errsHost sd0 so0 none 1 cli0 ["hostname foo"] false false).1.dev.running =
      cli0.dev.running ∧
    (Eapi.load_config errsHost sd0 so0 none 1 eap0 ["hostname foo"] false false).2 =
      .failJson "bad command" none (some 1002) ∧
    (Eapi.load_config errsHost sd0 so0 none 1 eap0 ["hostname foo"] false false).1.dev.sessions
      (sessionName 1) = none ∧
    (Eapi.load_config errsHost sd0 so0 none 1 eap0 ["hostname foo"] false false).1.dev.running =
      eap0.dev.running :=
  load_config_aborts_on_stage_error errsHost errsHost sd0 sd0 so0 so0 none none 1 1
    cli0 eap0 ["hostname foo"] ["hostname foo"] false false false false
    ⟨"bad command", 1002⟩ ⟨"bad command", 1002⟩
    rfl rfl rfl (by decide) (by decide) (by decide)
    rfl rfl (by decide) (by decide) (by decide)

/-- C2: for every command sequence, `load_config` with `commit=False` never
mutates the device's running configuration on either transport, whatever
the transport does; on the session path the staged changes are aborted
while the computed diff is still returned, and on the fallback path no
commands are applied at all (the result only assumes a pending change). -/
theorem load_config_no_commit_is_read_only
    (errs errsE : Oracle) (sd sdE : DiffFn) (so soE : OutFn)
    (env envE : Option String) (t tE : Nat) (cli : CliClient) (eap : EapiClient)
    (commands config : List String) (replace replaceE : Bool)
    (hmode : cli.dev.mode = .top)
    (hall : ∀ c ∈ commands, PlainCfg c) (hallE : ∀ c ∈ config, PlainCfg c) :
    (Cli.load_config errs sd so env t cli commands false replace).1.dev.running =
      cli.dev.running ∧
    (Eapi.load_config errsE sdE soE envE tE eap config false replaceE).1.dev.running =
      eap.dev.running ∧
    (cli.sessionSupport = some true → useSessionFlag env = true →
      cli.dev.sessions (sessionName t) = none → CtlOk errs (sessionName t) →
      commands.findSome? errs = none →
      (Cli.load_config errs sd so env t cli commands false replace).2 =
        .ok { session := some (sessionName t),
              diff :=
                if sd cli.dev.running
                    ((if replace then ["rollback clean-config"] else []) ++ commands) ≠ ""
                then some (pyStrip (sd cli.dev.running
                    ((if replace then ["rollback clean-config"] else []) ++ commands)))
                else none } ∧
      (Cli.load_config errs sd so env t cli commands false replace).1.dev.sessions
        (sessionName t) = none) ∧
    (eap.sessionSupport = some true → useSessionFlag envE = true →
      eap.dev.sessions (sessionName tE) = none → CtlOk errsE (sessionName tE) →
      config.findSome? errsE = none →
      (Eapi.load_config errsE sdE soE envE tE eap config false replaceE).2 =
        .ok { session := some (sessionName tE),
              diff :=
                if 0 < (sdE eap.dev.running
                    ((if replaceE then ["rollback clean-config"] else []) ++ config)).length
                then some (sdE eap.dev.running
                    ((if replaceE then ["rollback clean-config"] else []) ++ config))
                else none } ∧
      (Eapi.load_config errsE sdE soE envE tE eap config false replaceE).1.dev.sessions
        (sessionName tE) = none) ∧
    (∀ cliF : CliClient, cliF.sessionSupport = some false →
      Cli.load_config errs sd so env t cliF commands false replace =
        (cliF, .ok { changed := some true })) := by
  refine ⟨cli_load_config_keeps errs sd so env t cli commands replace hmode hall,
          eapi_load_config_keeps errsE sdE soE envE tE eap config replaceE hallE,
          ?_, ?_, ?_⟩
  · intro hsup henv hfresh hctl hok
    obtain ⟨o1, o2, o3⟩ := cli_load_config_check_mode errs sd so env t cli commands
      replace hsup henv hmode hfresh hall hctl hok
    exact ⟨o1, o3⟩
  · intro hsupE henvE hfreshE hctlE hokE
    obtain ⟨o1, o2, o3⟩ := eapi_load_config_check_mode errsE sdE soE envE tE eap config
      replaceE hsupE henvE hfreshE hallE hctlE hokE
    exact ⟨o1, o3⟩
  · intro cliF hsupF
    unfold Cli.load_config
    rw [cli_supports_cached errs sd so hsupF]
    dsimp only
    rw [if_pos (by simp)]
    rfl

/-- Witness for C2 at a concrete command list. -/
theorem load_config_no_commit_is_read_only_witness :
    (Cli.load_config errs0 sd0 so0 none 1 cli0 ["hostname foo"] false false).1.dev.running =
      cli0.dev.running ∧
    (Cli.load_config errs0 sd0 so0 none 1 cli0 ["hostname foo"] false false).2 =
      .ok { session := some (sessionName 1),
            diff :=
              if sd0 cli0.dev.running
                  ((if false then ["rollback clean-config"] else []) ++ ["hostname foo"]) ≠ ""
              then some (pyStrip (sd0 cli0.dev.running
                  ((if false then ["rollback clean-config"] else []) ++ ["hostname foo"])))
              else none } ∧
    (Eapi.load_config errs0 sd0 so0 none 1 eap0 ["hostname foo"] false false).1.dev.running =
      eap0.dev.running ∧
    (Eapi.load_config errs0 sd0 so0 none 1 eap0 ["hostname foo"] false false).2 =
      .ok { session := some (sessionName 1),
            diff :=
              if 0 < (sd0 eap0.dev.running
                  ((if false then ["rollback clean-config"] else []) ++ ["hostname foo"])).length
              then some (sd0 eap0.dev.running
                  ((if false then ["rollback clean-config"] else []) ++ ["hostname foo"]))
              else none } ∧
    Cli.load_config errs0 sd0 so0 none 1
        { dev := dev0, sessionSupport := some false, deviceConfigs := [] }
        ["hostname foo"] false false =
      ({ dev := dev0, sessionSupport := some false, deviceConfigs := [] },
       .ok { changed := some true }) := by
  have h := load_config_no_commit_is_read_only errs0 errs0 sd0 sd0 so0 so0 none none 1 1
    cli0 eap0 ["hostname foo"] ["hostname foo"] false false rfl (by decide) (by decide)
  exact ⟨h.1, (h.2.2.1 rfl rfl rfl (by decide) (by decide)).1,
         h.2.1, (h.2.2.2.1 rfl rfl rfl (by decide) (by decide)).1,
         h.2.2.2.2 _ rfl⟩

/-- C3 (code bug): two back-to-back `load_config` calls within the same
wall-clock second generate the SAME session name — the name is
`'ansible_%s' % int(time.time())` and depends only on the whole second, so
the required distinctness fails.  Here both calls at second 1514764800 name
their session `ansible_1514764800`. -/
theorem session_name_same_second_collision :
    (Cli.load_config errs0 sd0 so0 none 1514764800 cli0 ["hostname one"] false false).2 =
      .ok { session := some "ansible_1514764800", diff := some "hostname one" } ∧
    (Cli.load_config errs0 sd0 so0 none 1514764800
        (Cli.load_config errs0 sd0 so0 none 1514764800 cli0 ["hostname one"] false false).1
        ["hostname two"] false false).2 =
      .ok { session := some "ansible_1514764800", diff := some "hostname two" } ∧
    sessionName 1514764800 = sessionName 1514764800 := by
  decide

/-- C4 (code bug): with session usage disabled by the operator override and
`commit` requested, both `load_config` implementations evaluate
`self.configure(self, commands)` — a bound-method call passing `self` twice
— so instead of applying the commands through the non-transactional
`configure` path they raise `TypeError`. -/
theorem load_config_fallback_commit_raises_type_error :
    (Cli.load_config errs0 sd0 so0 (some "0") 7 cli0 ["hostname foo"] true false).2 =
      .pyError configureArityMsg ∧
    (Eapi.load_config errs0 sd0 so0 (some "0") 7 eap0 ["hostname foo"] true false).2 =
      .pyError configureArityMsg := by
  decide

/-- C8: a VM observed in the terminal-invalid state UNKNOWN or UNASSIGNED
makes `control_state` fail immediately with the descriptive message,
issuing no remote action call and entering no wait. -/
theorem control_state_invalid_state_fails_fast
    (v : Vm) (force : Bool) (state : String)
    (h : v.status = .unknown ∨ v.status = .unassigned) :
    control_state (some v) force state =
      ([], [], .failJson (invalidStateMsg v.status) none none) := by
  rcases h with h | h <;> simp [control_state, h]

/-- Witness for C8 at a VM observed in UNKNOWN. -/
theorem control_state_invalid_state_fails_fast_witness :
    control_state (some ⟨"vm1", .unknown⟩) false "running" =
      ([], [], .failJson (invalidStateMsg .unknown) none none) :=
  control_state_invalid_state_fails_fast ⟨"vm1", .unknown⟩ false "running" (Or.inl rfl)

/-- A string contains itself placed between two others. -/
lemma strContains_here (a s b : String) : strContains (a ++ s ++ b) s :=
  ⟨a.data, b.data, rfl⟩

/-- A string contains its own suffix. -/
lemma strContains_end (a s : String) : strContains (a ++ s) s :=
  ⟨a.data, [], by simp [strContains, data_append]⟩

/-- C9 counterexample: with the remote checksum absent, `put_file` fails
with `Remote sha1 was not returned` — a message that names neither hash
(the local hash `a1b2c3` does not occur in it) — refuting the claim that
the error names both hashes whenever the remote checksum is absent or
differs. -/
theorem put_file_absent_sha1_names_no_hashes :
    put_file true "a1b2c3" { status_code := 0, std_err := "", sha1 := none } =
      (.err "Remote sha1 was not returned", []) ∧
    ¬ strContains "Remote sha1 was not returned" "a1b2c3" := by
  exact ⟨rfl, by decide⟩

/-- C9 (amended): `put_file` succeeds exactly when the local file exists,
the remote status is zero, and the remote checksum is present, nonempty and
equal to the locally computed one.  An absent (or empty) remote checksum
fails with `Remote sha1 was not returned`; a differing one fails with an
error naming both hashes; and no branch deletes the partially written
destination file. -/
theorem put_file_integrity_contract (localExists : Bool) (local_sha1 : String)
    (res : WinRmExecResult) :
    ((put_file localExists local_sha1 res).1 = .ok ↔
      (localExists = true ∧ res.status_code = 0 ∧ res.sha1 = some local_sha1 ∧
       local_sha1 ≠ "")) ∧
    (∀ r, res.sha1 = some r → r ≠ "" → r ≠ local_sha1 → localExists = true →
      res.status_code = 0 →
      (put_file localExists local_sha1 res).1 =
        .err ("Remote sha1 hash " ++ r ++ " does not match local hash " ++ local_sha1) ∧
      strContains ("Remote sha1 hash " ++ r ++ " does not match local hash " ++ local_sha1) r ∧
      strContains ("Remote sha1 hash " ++ r ++ " does not match local hash " ++ local_sha1)
        local_sha1) ∧
    (localExists = true → res.status_code = 0 → (res.sha1 = none ∨ res.sha1 = some "") →
      (put_file localExists local_sha1 res).1 = .err "Remote sha1 was not returned") ∧
    (put_file localExists local_sha1 res).2 = [] := by
  obtain ⟨sc, se, sha⟩ := res
  refine ⟨?_, ?_, ?_, ?_⟩
  · constructor
    · intro h
      cases localExists with
      | false => simp [put_file] at h
      | true =>
        by_cases hsc : sc ≠ 0
        · simp [put_file, hsc] at h
        · cases sha with
          | none => simp [put_file, hsc] at h
          | some r =>
            by_cases hr : r = ""
            · simp [put_file, hsc, hr] at h
            · by_cases hm : r ≠ local_sha1
              · simp [put_file, hsc, hr, hm] at h
              · push_neg at hsc hm
                subst hm
                exact ⟨rfl, hsc, rfl, hr⟩
    · rintro ⟨hl, hsc, hsha, hne⟩
      subst hl
      subst hsha
      have hsc2 : sc = 0 := hsc
      simp [put_file, hsc2, hne]
  · intro r hsha hr hm hl hsc
    subst hl
    subst hsha
    have hsc2 : sc = 0 := hsc
    refine ⟨by simp [put_file, hsc2, hr, hm], ?_, ?_⟩
    · exact ⟨"Remote sha1 hash ".data, (" does not match local hash " ++ local_sha1).data,
        by simp [data_append, List.append_assoc]⟩
    · exact strContains_end _ _
  · rintro hl hsc (hsha | hsha) <;> subst hl <;> subst hsha <;>
      · have hsc2 : sc = 0 := hsc
        simp [put_file, hsc2]
  · cases localExists with
    | false => simp [put_file]
    | true =>
      by_cases hsc : sc ≠ 0
      · simp [put_file, hsc]
      · cases sha with
        | none => simp [put_file, hsc]
        | some r =>
          by_cases hr : r = ""
          · simp [put_file, hsc, hr]
          · by_cases hm : r ≠ local_sha1
            · simp [put_file, hsc, hr, hm]
            · push_neg at hm
              subst hm
              simp [put_file, hsc, hr]

/-- Witness for the amended C9 contract at concrete hashes. -/
theorem put_file_integrity_contract_witness :
    ((put_file true "aa" { status_code := 0, std_err := "", sha1 := some "bb" }).1 = .ok ↔
      (true = true ∧ (0 : Int) = 0 ∧ (some "bb" : Option String) = some "aa" ∧
       ("aa" : String) ≠ "")) ∧
    (put_file true "aa" { status_code := 0, std_err := "", sha1 := some "bb" }).1 =
      .err ("Remote sha1 hash " ++ "bb" ++ " does not match local hash " ++ "aa") ∧
    strContains ("Remote sha1 hash " ++ "bb" ++ " does not match local hash " ++ "aa") "bb" ∧
    strContains ("Remote sha1 hash " ++ "bb" ++ " does not match local hash " ++ "aa") "aa" ∧
    (put_file true "aa" { status_code := 0, std_err := "", sha1 := some "bb" }).2 = [] := by
  have h := put_file_integrity_contract true "aa"
    { status_code := 0, std_err := "", sha1 := some "bb" }
  obtain ⟨hm1, hm2, hm3⟩ := h.2.1 "bb" rfl (by decide) (by decide) rfl rfl
  exact ⟨h.1, hm1, hm2, hm3, h.2.2.2⟩

/-- Trace property of `send_config`: `end` is never handed to the
transport, and with a fault-free transport the trace is exactly the input
with `end` lines filtered out, in order. -/
lemma send_configAux_trace (errs : Oracle) (sd : DiffFn) (so : OutFn)
    (cmds : List String) :
    ∀ (st : DevState) (m : Bool),
      "end" ∉ (Cli.send_configAux errs sd so st m cmds).1 ∧
      ((∀ c ∈ cmds, errs c = none) →
        (Cli.send_configAux errs sd so st m cmds).1 =
          cmds.filter (fun c => c ≠ "end")) := by
  induction cmds with
  | nil => exact fun st m => ⟨by simp [Cli.send_configAux], fun _ => rfl⟩
  | cons c rest ih =>
    intro st m
    unfold Cli.send_configAux
    by_cases hce : c = "end"
    · rw [if_pos hce]
      subst hce
      refine ⟨(ih st m).1, fun hok => ?_⟩
      rw [(ih st m).2 (fun x hx => hok x (List.mem_cons_of_mem _ hx))]
      simp
    · rw [if_neg hce]
      unfold cliGet
      cases he : errs c with
      | some e =>
        refine ⟨?_, fun hok => ?_⟩
        · intro hmem
          simp only [List.mem_singleton] at hmem
          exact hce hmem.symm
        · have := hok c (List.mem_cons_self c rest)
          rw [this] at he
          cases he
      | none =>
        dsimp only
        refine ⟨?_, fun hok => ?_⟩
        · intro hmem
          rcases List.mem_cons.mp hmem with h | h
          · exact hce h.symm
          · exact (ih _ _).1 h
        · rw [(ih _ _).2 (fun x hx => hok x (List.mem_cons_of_mem _ hx))]
          simp [hce]

/-- C10: `Cli.send_config` never sends a command equal to `end` to the
device — such elements are silently skipped for every transport behaviour —
and with a fault-free transport all other commands are sent in their
original order; consequently a caller-supplied `end` line can never be
staged into a configuration session via `load_config`. -/
theorem send_config_never_sends_end (errs : Oracle) (sd : DiffFn) (so : OutFn)
    (st : DevState) (commands : List String)
    (hok : ∀ c ∈ commands, errs c = none) :
    (∀ errs2 : Oracle, "end" ∉ (Cli.send_config errs2 sd so st commands).1) ∧
    (Cli.send_config errs sd so st commands).1 =
      commands.filter (fun c => c ≠ "end") := by
  refine ⟨fun errs2 => (send_configAux_trace errs2 sd so commands st false).1, ?_⟩
  exact (send_configAux_trace errs sd so commands st false).2 hok

/-- Witness for C10 at a concrete command list containing `end`. -/
theorem send_config_never_sends_end_witness :
    ("end" ∉ (Cli.send_config errs0 sd0 so0 dev0
      ["hostname foo", "end", "hostname bar"]).1) ∧
    (Cli.send_config errs0 sd0 so0 dev0 ["hostname foo", "end", "hostname bar"]).1 =
      ["hostname foo", "end", "hostname bar"].filter (fun c => c ≠ "end") := by
  have h := send_config_never_sends_end errs0 sd0 so0 dev0
    ["hostname foo", "end", "hostname bar"] (by decide)
  exact ⟨h.1 errs0, h.2⟩

/-- An eAPI request carrying one fault-free command yields a one-entry
result (the elevation entry is popped). -/
lemma send_request_single (errs : Oracle) (sd : DiffFn) (so : OutFn)
    (st : DevState) (c : String)
    (hen : errs "enable" = none) (hc : errs c = none) :
    Eapi.send_request errs sd so st [c] "text" =
      ((execCmd sd so (execCmd sd so { st with mode := .top } "enable").1 c).1,
       .result [(execCmd sd so (execCmd sd so { st with mode := .top } "enable").1 c).2]) := by
  unfold Eapi.send_request
  simp only [runBatch, hen, hc]
  rfl

/-- C7: `get_config` on both clients is a read-through cache keyed by the
rendered flags string for the lifetime of the client instance.  The first
call on a missing key fetches the configuration and stores the stripped
text under the rendered key; every later call with the same flags returns
the stored text from the cache, independently of the transport — the
client is returned unchanged and no device request is made. -/
theorem get_config_read_through
    (fetch : List String → String) (cli : CliClient) (flags : Option (List String))
    (errsE : Oracle) (sdE : DiffFn) (soE : OutFn) (eap : EapiClient)
    (flagsE : Option (List String))
    (hmiss : dictGet (pyStrip ("show running-config " ++ pyJoin " " (flags.getD [])))
      cli.deviceConfigs = none)
    (hmissE : dictGet (pyStrip ("show running-config " ++ pyJoin " " (flagsE.getD [])))
      eap.deviceConfigs = none)
    (hen : errsE "enable" = none)
    (hcmd : errsE (pyStrip ("show running-config " ++ pyJoin " " (flagsE.getD []))) = none) :
    (Cli.get_config fetch cli flags).2 = pyStrip (fetch (flags.getD [])) ∧
    (∀ fetch2 : List String → String,
      Cli.get_config fetch2 (Cli.get_config fetch cli flags).1 flags =
        ((Cli.get_config fetch cli flags).1, (Cli.get_config fetch cli flags).2)) ∧
    (∃ v : String,
      (Eapi.get_config errsE sdE soE eap flagsE).2 = .ok v ∧
      dictGet (pyStrip ("show running-config " ++ pyJoin " " (flagsE.getD [])))
        (Eapi.get_config errsE sdE soE eap flagsE).1.deviceConfigs = some v ∧
      ∀ (errs2 : Oracle) (sd2 : DiffFn) (so2 : OutFn),
        Eapi.get_config errs2 sd2 so2 (Eapi.get_config errsE sdE soE eap flagsE).1 flagsE =
          ((Eapi.get_config errsE sdE soE eap flagsE).1,
           (Eapi.get_config errsE sdE soE eap flagsE).2)) := by
  refine ⟨?_, ?_, ?_⟩
  · unfold Cli.get_config
    dsimp only
    rw [hmiss]
  · intro fetch2
    unfold Cli.get_config
    dsimp only
    rw [hmiss]
    dsimp only
    rw [show dictGet (pyStrip ("show running-config " ++ pyJoin " " (flags.getD [])))
      ((pyStrip ("show running-config " ++ pyJoin " " (flags.getD [])),
        pyStrip (fetch (flags.getD []))) :: cli.deviceConfigs) =
      some (pyStrip (fetch (flags.getD []))) from by simp [dictGet]]
  · have hsr := send_request_single errsE sdE soE eap.dev
      (pyStrip ("show running-config " ++ pyJoin " " (flagsE.getD []))) hen hcmd
    unfold Eapi.get_config
    dsimp only
    rw [hmissE]
    dsimp only
    rw [hsr]
    dsimp only
    rw [List.head?_cons]
    dsimp only
    refine ⟨_, rfl, by simp [dictGet], ?_⟩
    intro errs2 sd2 so2
    rw [show dictGet (pyStrip ("show running-config " ++ pyJoin " " (flagsE.getD [])))
      ((pyStrip ("show running-config " ++ pyJoin " " (flagsE.getD [])),
        pyStrip (execCmd sdE soE
          (execCmd sdE soE { eap.dev with mode := Mode.top } "enable").1
          (pyStrip ("show running-config " ++ pyJoin " " (flagsE.getD [])))).2) ::
        eap.deviceConfigs) =
      some (pyStrip (execCmd sdE soE
          (execCmd sdE soE { eap.dev with mode := Mode.top } "enable").1
          (pyStrip ("show running-config " ++ pyJoin " " (flagsE.getD [])))).2)
      from by simp [dictGet]]

/-- Witness for C7: a concrete first fetch and a cached second call. -/
theorem get_config_read_through_witness :
    (Cli.get_config (fun _ => " cfg ") cli0 none).2 = pyStrip " cfg " ∧
    Cli.get_config (fun _ => "OTHER") (Cli.get_config (fun _ => " cfg ") cli0 none).1 none =
      ((Cli.get_config (fun _ => " cfg ") cli0 none).1,
       (Cli.get_config (fun _ => " cfg ") cli0 none).2) ∧
    (∃ v : String,
      (Eapi.get_config errs0 sd0 so0 eap0 none).2 = .ok v ∧
      dictGet (pyStrip ("show running-config " ++
          pyJoin " " ((none : Option (List String)).getD [])))
        (Eapi.get_config errs0 sd0 so0 eap0 none).1.deviceConfigs = some v ∧
      ∀ (errs2 : Oracle) (sd2 : DiffFn) (so2 : OutFn),
        Eapi.get_config errs2 sd2 so2 (Eapi.get_config errs0 sd0 so0 eap0 none).1 none =
          ((Eapi.get_config errs0 sd0 so0 eap0 none).1,
           (Eapi.get_config errs0 sd0 so0 eap0 none).2)) := by
  have h := get_config_read_through (fun _ => " cfg ") cli0 none errs0 sd0 so0 eap0 none
    rfl rfl rfl rfl
  exact ⟨h.1, h.2.1 _, h.2.2⟩

/-- C5 counterexample: `Eapi.supports_sessions` does not cache a negative
probe result.  A fresh client whose first probe fails reports unsupported
and stores `False`, but a second call re-probes the transport — here the
transport no longer fails, so the later call returns `true`, contradicting
"the first probe result, whether supported or unsupported, is cached and
returned by every later call". -/
theorem eapi_supports_sessions_not_cached_cex :
    (Eapi.supports_sessions errsProbe sd0 so0 eapFresh).2 = false ∧
    (Eapi.supports_sessions errsProbe sd0 so0 eapFresh).1.sessionSupport = some false ∧
    (Eapi.supports_sessions errs0 sd0 so0
      (Eapi.supports_sessions errsProbe sd0 so0 eapFresh).1).2 = true := by
  decide

/-- C5 (amended): probe errors are locally recovered as "sessions
unsupported", never fatal, and caching is asymmetric.  `Cli` caches the
first probe result, positive or negative, and returns it from then on
without touching the transport; `Eapi` short-circuits only on a cached
`True` — a client holding a cached `False` re-probes the device on every
later call, and the call's answer tracks the fresh probe, not the cache. -/
theorem supports_sessions_caching
    (errs errs2 : Oracle) (sd sd2 : DiffFn) (so so2 : OutFn)
    (cli : CliClient) (eap : EapiClient) (b : Bool)
    (hc : cli.sessionSupport = none)
    (he : eap.sessionSupport = none) :
    (∀ emsg, errs "show configuration sessions" = some emsg →
      (Cli.supports_sessions errs sd so cli).2 = false ∧
      (Cli.supports_sessions errs sd so cli).1.sessionSupport = some false) ∧
    (errs "show configuration sessions" = none →
      (Cli.supports_sessions errs sd so cli).2 = true ∧
      (Cli.supports_sessions errs sd so cli).1.sessionSupport = some true) ∧
    (∀ cli2 : CliClient, cli2.sessionSupport = some b →
      Cli.supports_sessions errs2 sd2 so2 cli2 = (cli2, b)) ∧
    (∀ eap2 : EapiClient, eap2.sessionSupport = some true →
      Eapi.supports_sessions errs2 sd2 so2 eap2 = (eap2, true)) ∧
    (∀ eap2 : EapiClient, eap2.sessionSupport = some false →
      (Eapi.supports_sessions errs2 sd2 so2 eap2).2 =
        ((errs2 "enable").isNone && (errs2 "show configuration sessions").isNone)) ∧
    ((Eapi.supports_sessions errs sd so eap).2 =
      ((errs "enable").isNone && (errs "show configuration sessions").isNone)) := by
  have eapiProbe : ∀ (errsX : Oracle) (sdX : DiffFn) (soX : OutFn) (eapX : EapiClient),
      ¬ eapX.sessionSupport = some true →
      (Eapi.supports_sessions errsX sdX soX eapX).2 =
        ((errsX "enable").isNone && (errsX "show configuration sessions").isNone) := by
    intro errsX sdX soX eapX hne
    unfold Eapi.supports_sessions
    rw [if_neg hne]
    dsimp only
    unfold Eapi.send_request
    cases hE : errsX "enable" with
    | some e1 =>
      simp only [runBatch, hE]
      rfl
    | none =>
      cases hP : errsX "show configuration sessions" with
      | some e2 =>
        simp only [runBatch, hE, hP]
        rfl
      | none =>
        simp only [runBatch, hE, hP]
        rfl
  refine ⟨?_, ?_, ?_, ?_, ?_, ?_⟩
  · intro emsg hpe
    unfold Cli.supports_sessions
    rw [hc, hpe]
    exact ⟨rfl, rfl⟩
  · intro hpe
    unfold Cli.supports_sessions
    rw [hc, hpe]
    exact ⟨rfl, rfl⟩
  · intro cli2 h2
    exact cli_supports_cached errs2 sd2 so2 h2
  · intro eap2 h2
    exact eapi_supports_cached_true errs2 sd2 so2 h2
  · intro eap2 h2
    exact eapiProbe errs2 sd2 so2 eap2 (by rw [h2]; intro hx; cases hx)
  · exact eapiProbe errs sd so eap (by rw [he]; intro hx; cases hx)

/-- Witness for the amended C5 at concrete clients and transports. -/
theorem supports_sessions_caching_witness :
    (Cli.supports_sessions errsProbe sd0 so0 cliFresh).2 = false ∧
    (Cli.supports_sessions errsProbe sd0 so0 cliFresh).1.sessionSupport = some false ∧
    Cli.supports_sessions errs0 sd0 so0 cli0 = (cli0, true) ∧
    Eapi.supports_sessions errs0 sd0 so0 eap0 = (eap0, true) ∧
    (Eapi.supports_sessions errs0 sd0 so0 eapNeg).2 =
      ((errs0 "enable").isNone && (errs0 "show configuration sessions").isNone) ∧
    (Eapi.supports_sessions errsProbe sd0 so0 eapFresh).2 =
      ((errsProbe "enable").isNone && (errsProbe "show configuration sessions").isNone) := by
  have h := supports_sessions_caching errsProbe errs0 sd0 sd0 so0 so0 cliFresh eapFresh
    true rfl rfl
  exact ⟨(h.1 ⟨"unsupported", 1002⟩ (by decide)).1,
         (h.1 ⟨"unsupported", 1002⟩ (by decide)).2,
         h.2.2.1 cli0 rfl, h.2.2.2.1 eap0 rfl,
         h.2.2.2.2.1 eapNeg rfl, h.2.2.2.2.2⟩

/-- C6 counterexample: on the eAPI transport `to_command` defaults every
command's output format to `json`, so `run_commands(["show x | json",
"show y"])` forms a SINGLE json batch `["show x ", "show y"]` sent in one
wire call — not two batches (json, text) in two separate wire calls. -/
theorem run_commands_single_batch_cex :
    (Eapi.run_commands errs0 sd0 so0 dev0
      (to_command true ["show x | json", "show y"])).2.1 =
      [("json", ["show x ", "show y"])] ∧
    (Eapi.run_commands errs0 sd0 so0 dev0
      (to_command true ["show x | json", "show y"])).2.1.length = 1 := by
  decide

/-- Resetting an already top-level connection to top level is the
identity. -/
lemma reset_top_eq {st : DevState} (h : st.mode = .top) :
    ({ st with mode := .top } : DevState) = st := by
  obtain ⟨r, s, m⟩ := st
  cases h
  rfl

/-- A fault-free batch of plain top-level commands echoes each command's
show output and leaves the device unchanged. -/
lemma runBatch_top_plain (errs : Oracle) (sd : DiffFn) (so : OutFn) :
    ∀ (cmds : List String) (st : DevState), st.mode = .top →
      (∀ c ∈ cmds, parseCmd c = .plain c) → (∀ c ∈ cmds, errs c = none) →
      runBatch errs sd so st cmds = (st, cmds.map so, none)
  | [], st, _, _, _ => rfl
  | c :: rest, st, hmode, hplain, herr => by
    unfold runBatch
    rw [herr c (List.mem_cons_self c rest)]
    dsimp only
    rw [exec_top_plain sd so hmode (hplain c (List.mem_cons_self c rest))]
    dsimp only
    rw [runBatch_top_plain errs sd so rest st hmode
      (fun x hx => hplain x (List.mem_cons_of_mem c hx))
      (fun x hx => herr x (List.mem_cons_of_mem c hx))]
    rfl

/-- A fault-free eAPI request of plain show commands from a top-level
device returns one output per command, in order, without touching the
device. -/
lemma send_request_plain (errs : Oracle) (sd : DiffFn) (so : OutFn)
    (st : DevState) (cmds : List String) (output : String)
    (hmode : st.mode = .top)
    (hplain : ∀ c ∈ cmds, parseCmd c = .plain c) (herr : ∀ c ∈ cmds, errs c = none)
    (hen : errs "enable" = none) :
    Eapi.send_request errs sd so st cmds output = (st, .result (cmds.map so)) := by
  unfold Eapi.send_request
  rw [reset_top_eq hmode]
  rw [runBatch_top_plain errs sd so ("enable" :: cmds) st hmode
    (by
      intro c hc
      rcases List.mem_cons.mp hc with h | h
      · subst h; decide
      · exact hplain c h)
    (by
      intro c hc
      rcases List.mem_cons.mp hc with h | h
      · subst h; exact hen
      · exact herr c h)]
  rfl

/-- Order preservation of the batching loop: with a fault-free transport
and plain show commands, the loop returns all responses in the original
input order and the wire calls carry all commands in order. -/
lemma run_commandsAux_order (errs : Oracle) (sd : DiffFn) (so : OutFn)
    (herr : ∀ c, errs c = none) :
    ∀ (items : List CmdSpec) (st : DevState) (out : Option String)
      (queue acc : List String) (wire : List (String × List String)),
      st.mode = .top →
      (∀ it ∈ items, parseCmd (resolveItem it).command = .plain (resolveItem it).command) →
      (∀ c ∈ queue, parseCmd c = .plain c) →
      (out = none → queue = []) →
      (run_commandsAux errs sd so st out queue acc wire items).1 = st ∧
      (run_commandsAux errs sd so st out queue acc wire items).2.2 =
        .ok (acc ++ (queue ++ items.map (fun it => (resolveItem it).command)).map so) ∧
      ((run_commandsAux errs sd so st out queue acc wire items).2.1).flatMap
          (fun b => b.2) =
        wire.flatMap (fun b => b.2) ++ queue ++
          items.map (fun it => (resolveItem it).command)
  | [], st, out, queue, acc, wire, hmode, _, hq, hoq => by
    unfold run_commandsAux
    by_cases hqe : queue.isEmpty
    · rw [if_pos hqe]
      have : queue = [] := List.isEmpty_iff.mp hqe
      subst this
      exact ⟨rfl, by simp, by simp⟩
    · rw [if_neg hqe]
      rw [send_request_plain errs sd so st queue (out.getD "json") hmode hq
        (fun c _ => herr c) (herr "enable")]
      refine ⟨rfl, by simp, by simp⟩
  | it :: rest, st, out, queue, acc, wire, hmode, hplain, hq, hoq => by
    unfold run_commandsAux
    have hit := hplain it (List.mem_cons_self it rest)
    have hrest := fun x hx => hplain x (List.mem_cons_of_mem it hx)
    by_cases hfl : truthyOpt out = true ∧ out ≠ (resolveItem it).output
    · rw [if_pos hfl]
      rw [send_request_plain errs sd so st queue (out.getD "json") hmode hq
        (fun c _ => herr c) (herr "enable")]
      have ih := run_commandsAux_order errs sd so herr rest st
        (some (orJson (resolveItem it).output)) [(resolveItem it).command]
        (acc ++ queue.map so) (wire ++ [(out.getD "json", queue)]) hmode hrest
        (by
          intro c hc
          simp only [List.mem_singleton] at hc
          subst hc
          exact hit)
        (by intro hx; cases hx)
      refine ⟨ih.1, ?_, ?_⟩
      · rw [ih.2.1]
        simp [List.append_assoc]
      · rw [ih.2.2]
        simp [List.append_assoc]
    · rw [if_neg hfl]
      have ih := run_commandsAux_order errs sd so herr rest st
        (some (orJson (resolveItem it).output)) (queue ++ [(resolveItem it).command])
        acc wire hmode hrest
        (by
          intro c hc
          rcases List.mem_append.mp hc with h | h
          · exact hq c h
          · simp only [List.mem_singleton] at h
            subst h
            exact hit)
        (by intro hx; cases hx)
      refine ⟨ih.1, ?_, ?_⟩
      · rw [ih.2.1]
        simp [List.append_assoc]
      · rw [ih.2.2]
        simp [List.append_assoc]

/-- C6 (amended): `run_commands` resolves each command's output format with
a trailing `| json` selecting structured output, groups adjacent commands
of equal resolved format into single wire calls, and reassembles responses
in the original input order.  However, on the eAPI transport `to_command`
defaults the resolved format of every command to `json`, so
`run_commands(["show x | json", "show y"])` makes ONE json wire call
carrying `["show x ", "show y"]`, with results in input order — not two
(json, text) calls. -/
theorem run_commands_batching_order (errs : Oracle) (sd : DiffFn) (so : OutFn)
    (st : DevState) (items : List CmdSpec)
    (herr : ∀ c, errs c = none) (hmode : st.mode = .top)
    (hplain : ∀ it ∈ items,
      parseCmd (resolveItem it).command = .plain (resolveItem it).command) :
    (Eapi.run_commands errs sd so st items).2.2 =
      .ok ((items.map (fun it => (resolveItem it).command)).map so) ∧
    ((Eapi.run_commands errs sd so st items).2.1).flatMap (fun b => b.2) =
      items.map (fun it => (resolveItem it).command) ∧
    (Eapi.run_commands errs0 sd0 so0 dev0
      (to_command true ["show x | json", "show y"])).2.1 =
      [("json", ["show x ", "show y"])] ∧
    (Eapi.run_commands errs0 sd0 so0 dev0
      (to_command true ["show x | json", "show y"])).2.2 =
      .ok ["show x ", "show y"] := by
  have h := run_commandsAux_order errs sd so herr items st none [] [] [] hmode hplain
    (by intro c hc; cases hc) (fun _ => rfl)
  refine ⟨?_, ?_, by decide, by decide⟩
  · rw [show Eapi.run_commands errs sd so st items =
      run_commandsAux errs sd so st none [] [] [] items from rfl]
    rw [h.2.1]
    simp
  · rw [show Eapi.run_commands errs sd so st items =
      run_commandsAux errs sd so st none [] [] [] items from rfl]
    rw [h.2.2]
    simp

/-- Witness for the amended C6 at a concrete command list. -/
theorem run_commands_batching_order_witness :
    (Eapi.run_commands errs0 sd0 so0 dev0
      (to_command true ["show a", "show b | json"])).2.2 =
      .ok (((to_command true ["show a", "show b | json"]).map
        (fun it => (resolveItem it).command)).map so0) ∧
    ((Eapi.run_commands errs0 sd0 so0 dev0
      (to_command true ["show a", "show b | json"])).2.1).flatMap (fun b => b.2) =
      (to_command true ["show a", "show b | json"]).map
        (fun it => (resolveItem it).command) ∧
    (Eapi.run_commands errs0 sd0 so0 dev0
      (to_command true ["show x | json", "show y"])).2.1 =
      [("json", ["show x ", "show y"])] := by
  have h := run_commands_batching_order errs0 sd0 so0 dev0
    (to_command true ["show a", "show b | json"]) (fun _ => rfl) rfl (by decide)
  exact ⟨h.1, h.2.1, h.2.2.1⟩
